import Mathlib

/-!
Verification of the ESPN-data normalization engine (`espn_data/processor.py`)
against its natural-language specification.

The Python code is shallowly embedded: Python scalar values (str, int, float,
bool, None, numpy NaN) and JSON trees become the inductive type `PyVal`;
Python dicts built by the processor become association lists (`PyDict`) with
Python's insertion-order/overwrite-in-place update semantics; fallible Python
code (attribute errors, type errors caught by an outer handler) becomes
`Except Unit`.  Python float arithmetic is modelled by exact rationals with
`round(x, 1)` modelled as decimal round-half-to-even (`pyRound1`).
-/

/-- A Python/JSON value as it appears in the processor: None, bool, str, int,
float (modelled as an exact rational), numpy NaN, list, dict. -/
inductive PyVal where
  | null : PyVal
  | b (v : Bool) : PyVal
  | s (v : String) : PyVal
  | i (v : Int) : PyVal
  | f (v : ℚ) : PyVal
  | nan : PyVal
  | arr (items : List PyVal) : PyVal
  | obj (fields : List (String × PyVal)) : PyVal

/-- A Python dict under construction by the processor (string keys, insertion
order preserved, update-in-place on an existing key). -/
abbrev PyDict := List (String × PyVal)

/-- Python `d[k]` / `d.get(k)`: value at the first (only) occurrence of `k`. -/
def pyLookup : PyDict → String → Option PyVal
  | [], _ => none
  | (k, v) :: rest, key => if k = key then some v else pyLookup rest key

/-- Python `d[k] = v`: overwrite in place when `k` exists, else append. -/
def pySet : PyDict → String → PyVal → PyDict
  | [], key, val => [(key, val)]
  | (k, v) :: rest, key, val =>
    if k = key then (k, val) :: rest else (k, v) :: pySet rest key val

/-- Python `d.pop(k)`: remove the binding of `k`. -/
def pyPop (d : PyDict) (k : String) : PyDict :=
  d.filter (fun kv => kv.1 != k)

@[simp] theorem pyLookup_pySet_self (d : PyDict) (k : String) (v : PyVal) :
    pyLookup (pySet d k v) k = some v := by
  induction d with
  | nil => simp [pySet, pyLookup]
  | cons kv rest ih =>
    by_cases h : kv.1 = k
    · simp [pySet, pyLookup, h]
    · simpa [pySet, pyLookup, h] using ih

theorem pyLookup_pySet_ne (d : PyDict) (k k' : String) (v : PyVal) (h : k ≠ k') :
    pyLookup (pySet d k v) k' = pyLookup d k' := by
  induction d with
  | nil => simp [pySet, pyLookup, h]
  | cons kv rest ih =>
    by_cases hk : kv.1 = k
    · have hne : ¬(k' = k) := fun hh => h hh.symm
      subst hk
      simp [pySet, pyLookup, fun hh : kv.1 = k' => h hh, hne]
    · by_cases hk' : kv.1 = k'
      · simp [pySet, pyLookup, hk, hk', Ne.symm h]
      · simpa [pySet, pyLookup, hk, hk'] using ih

theorem pyLookup_pyPop_ne (d : PyDict) (k k' : String) (h : k ≠ k') :
    pyLookup (pyPop d k) k' = pyLookup d k' := by
  induction d with
  | nil => simp [pyPop, pyLookup]
  | cons kv rest ih =>
    by_cases hk : kv.1 = k
    · have hne : kv.1 ≠ k' := hk ▸ h
      simp only [pyPop, List.filter_cons] at ih ⊢
      simp [hk, hne, pyLookup, ih, h]
    · by_cases hk' : kv.1 = k'
      · simp only [pyPop, List.filter_cons] at ih ⊢
        simp [hk, hk', pyLookup, Ne.symm h]
      · simp only [pyPop, List.filter_cons] at ih ⊢
        simp [hk, hk', pyLookup, ih]

/-! ### Numeric string parsing (Python `int(...)`, `str.isdigit`, `float(...)`) -/

/-- Value of a decimal digit string (the digits of `int("...")`). -/
def digitsVal (l : List Char) : Nat :=
  l.foldl (fun n c => 10 * n + (c.toNat - '0'.toNat)) 0

/-- All characters are ASCII decimal digits. -/
def allDigits (l : List Char) : Bool :=
  l.all Char.isDigit

/-- Python `str.strip()` as used implicitly by `int(...)`. -/
def pyStrip (l : List Char) : List Char :=
  ((l.dropWhile Char.isWhitespace).reverse.dropWhile Char.isWhitespace).reverse

/-- Core of Python `int(s)` after whitespace stripping: optional single sign
followed by a nonempty run of decimal digits.  (Underscore digit grouping and
non-ASCII digits, which CPython also accepts, do not occur in this data and
are not modelled.) -/
def parsePyIntCore : List Char → Option Int
  | [] => none
  | c :: rest =>
    if c = '-' then
      if rest ≠ [] ∧ allDigits rest then some (-(digitsVal rest : Int)) else none
    else if c = '+' then
      if rest ≠ [] ∧ allDigits rest then some ((digitsVal rest : Int)) else none
    else if allDigits (c :: rest) then some ((digitsVal (c :: rest) : Int)) else none

/-- Python `int(s)` (raising = `none`). -/
def parsePyInt (l : List Char) : Option Int :=
  parsePyIntCore (pyStrip l)

/-- Python `str.lower()` (ASCII). -/
def strLower (s : String) : String :=
  String.mk (s.data.map Char.toLower)

/-- Python `s.split(c)` for a single-character separator.  (The result is
never empty, so prepending to its head is total.) -/
def splitOnChar (c : Char) : List Char → List (List Char)
  | [] => [[]]
  | x :: xs =>
    if x = c then [] :: splitOnChar c xs
    else (x :: (splitOnChar c xs).headD []) :: (splitOnChar c xs).tail

/-- `made, attempted = s.split('-')` followed by `int(made)`, `int(attempted)`:
succeeds only when the split yields exactly two int-parsable parts (a wrong
number of parts raises ValueError, a bad part raises ValueError; both are
caught by the same handler). -/
def parseMadeAtt (sv : String) : Option (Int × Int) :=
  match splitOnChar '-' sv.data with
  | [a, bb] =>
    match parsePyInt a, parsePyInt bb with
    | some m, some n => some (m, n)
    | _, _ => none
  | _ => none

/-! ### Python `round(x, 1)` on exact rationals: decimal round-half-to-even. -/

/-- Round a rational to the nearest integer, ties to even. -/
def rhe (x : ℚ) : ℤ :=
  let n := ⌊x⌋
  let r := x - (n : ℚ)
  if r < 1 / 2 then n
  else if (1 : ℚ) / 2 < r then n + 1
  else if n % 2 = 0 then n else n + 1

/-- Python `round(x, 1)` (modelling the float as an exact rational). -/
def pyRound1 (x : ℚ) : ℚ :=
  (rhe (10 * x) : ℚ) / 10

/-! ### Stat Normalizer: composite shooting stats (processor.py 608-634, 726-757) -/

/-- The three composite made-attempted categories. -/
def combinedCats : List String := ["FG", "3PT", "FT"]

/-- The except-branch of the composite parse: all three derived fields are
assigned NaN (any partial assignment made before the exception is overwritten,
so this is the net effect of the Python handler). -/
def setNaN3 (cat : String) (d : PyDict) : PyDict :=
  pySet (pySet (pySet d (cat ++ "_MADE") .nan) (cat ++ "_ATT") .nan) (cat ++ "_PCT") .nan

/-- `round(made/attempted*100 if attempted > 0 else 0, 1)`. -/
def pctOf (m n : Int) : ℚ :=
  pyRound1 (if 0 < n then (m : ℚ) / (n : ℚ) * 100 else 0)

/-- One iteration of the player-stats composite loop (processor.py 609-634):
`if column_name in record and isinstance(record[column_name], str) and '-' in
record[column_name]: parse / except NaN; elif dnp: NaN`. -/
def processCombined (dnp : Bool) (cat : String) (d : PyDict) : PyDict :=
  match pyLookup d cat with
  | some (.s sv) =>
    if '-' ∈ sv.data then
      match parseMadeAtt sv with
      | some (m, n) =>
        pySet (pySet (pySet d (cat ++ "_MADE") (.i m)) (cat ++ "_ATT") (.i n))
          (cat ++ "_PCT") (.f (pctOf m n))
      | none => setNaN3 cat d
    else if dnp then setNaN3 cat d else d
  | _ => if dnp then setNaN3 cat d else d

/-- The loop `for column_name in ['FG', '3PT', 'FT']`. -/
def processAllCombined (dnp : Bool) (d : PyDict) : PyDict :=
  combinedCats.foldl (fun d cat => processCombined dnp cat d) d

/-- `rename_map` (processor.py 637-648). -/
def renameMap : List (String × String) :=
  [("minutes", "MIN"), ("offensiveRebounds", "OREB"), ("defensiveRebounds", "DREB"),
   ("rebounds", "REB"), ("assists", "AST"), ("steals", "STL"), ("blocks", "BLK"),
   ("turnovers", "TO"), ("fouls", "PF"), ("points", "PTS")]

/-- `player_record[new] = player_record.pop(old)` (applied only when the old
key exists): the pop happens first, then the assignment. -/
def renameStep (d : PyDict) (kv : String × String) : PyDict :=
  match pyLookup d kv.1 with
  | some v => pySet (pyPop d kv.1) kv.2 v
  | none => d

/-- The rename loop over `rename_map` (processor.py 650-653). -/
def renamePlayer (d : PyDict) : PyDict :=
  renameMap.foldl renameStep d

/-- The ten basic stat fields forced to NaN for DNP players (processor.py 657-659). -/
def dnpBasicFields : List String :=
  ["MIN", "OREB", "DREB", "REB", "AST", "STL", "BLK", "TO", "PF", "PTS"]

/-- Assign NaN to one column. -/
def setNanCol (d : PyDict) (fld : String) : PyDict :=
  pySet d fld .nan

/-- `if dnp: player_record[field] = np.nan` for the ten basic fields. -/
def dnpNullBasic (dnp : Bool) (d : PyDict) : PyDict :=
  if dnp then dnpBasicFields.foldl setNanCol d else d

/-- The raw-stat loop (processor.py 598-606): for each index into `stat_keys`
with a value available, write the value under the label when one exists at
that index, else under the key. -/
def addRawStats : List String → List String → List PyVal → PyDict → PyDict
  | _, _, [], d => d
  | [], _, _, d => d
  | k :: ks, [], v :: vs, d => addRawStats ks [] vs (pySet d k v)
  | _ :: ks, lb :: ls, v :: vs, d => addRawStats ks ls vs (pySet d lb v)

/-- The column names the raw-stat loop actually writes. -/
def effCols : List String → List String → List PyVal → List String
  | _, _, [] => []
  | [], _, _ => []
  | k :: ks, [], _ :: vs => k :: effCols ks [] vs
  | _ :: ks, lb :: ls, _ :: vs => lb :: effCols ks ls vs

/-- The player record literal (processor.py 584-595). -/
def basePlayerRecord (gid tid tname tab pid pname ppos pjersey : PyVal)
    (starter dnp : Bool) : PyDict :=
  [("game_id", gid), ("team_id", tid), ("team_name", tname), ("team_abbrev", tab),
   ("player_id", pid), ("player_name", pname), ("position", ppos), ("jersey", pjersey),
   ("starter", .b starter), ("dnp", .b dnp)]

/-- One player's stat line as built by `process_game_data` (base record, raw
stat columns, composite expansion, canonical renaming, DNP basic-stat nulling,
in source order). -/
def buildPlayerRecord (gid tid tname tab pid pname ppos pjersey : PyVal)
    (starter dnp : Bool) (keys labels : List String) (vals : List PyVal) : PyDict :=
  dnpNullBasic dnp
    (renamePlayer
      (processAllCombined dnp
        (addRawStats keys labels vals
          (basePlayerRecord gid tid tname tab pid pname ppos pjersey starter dnp))))

/-- `stat_columns` of the player-stats DNP pass in `optimize_dataframe_dtypes`
(processor.py 1270-1273). -/
def dnpStatColumns : List String :=
  ["MIN", "FG_MADE", "FG_ATT", "FG_PCT", "3PT_MADE", "3PT_ATT", "3PT_PCT",
   "FT_MADE", "FT_ATT", "FT_PCT", "OREB", "DREB", "REB", "AST", "STL", "BLK",
   "TO", "PF", "PTS"]

/-- pandas `value == True` (Python equality: `True`, `1`, `1.0` all compare
equal to `True`). -/
def pyEqTrue : PyVal → Bool
  | .b v => v
  | .i n => n == 1
  | .f q => q == 1
  | _ => false

/-- The DNP pass of `optimize_dataframe_dtypes` for `player_stats`
(processor.py 1266-1281), specialized to one row: where the `dnp` column
compares equal to `True`, every present stat column is set to NaN. -/
def dnpCondSet (d : PyDict) (c : String) : PyDict :=
  if (pyLookup d c).isSome then pySet d c .nan else d

/-- The full DNP pass over the `stat_columns` list. -/
def optimizerDnpRow (d : PyDict) : PyDict :=
  match pyLookup d "dnp" with
  | some v =>
    if pyEqTrue v then dnpStatColumns.foldl dnpCondSet d
    else d
  | none => d

/-! ### Stat Normalizer at team granularity (processor.py 707-757) -/

/-- Python `s.replace('.', '', 1)`. -/
def removeFirstDot : List Char → List Char
  | [] => []
  | c :: rest => if c = '.' then rest else c :: removeFirstDot rest

/-- Python `str.isdigit()` (ASCII digits; nonempty). -/
def isDigitStr (l : List Char) : Bool :=
  !l.isEmpty && l.all Char.isDigit

/-- Python `float(s)` for a digit string with at most one dot. -/
def parseDecQ (l : List Char) : ℚ :=
  match splitOnChar '.' l with
  | [a] => (digitsVal a : ℚ)
  | [a, bb] => (digitsVal a : ℚ) + (digitsVal bb : ℚ) / ((10 : ℚ) ^ bb.length)
  | _ => 0

/-- One team statistic (processor.py 713-757) given its resolved column name
`col` and string display value `dv`: skip when the name is falsy or already
present; store the display value; then composite expansion for FG/3PT/FT,
numeric conversion, or empty/sentinel-to-NaN. -/
def processTeamStat (col : String) (dv : String) (d : PyDict) : PyDict :=
  if col = "" ∨ (pyLookup d col).isSome then d
  else
    let d1 := pySet d col (.s dv)
    if col ∈ combinedCats ∧ '-' ∈ dv.data then
      match parseMadeAtt dv with
      | some (m, n) =>
        pySet (pySet (pySet d1 (col ++ "_MADE") (.i m)) (col ++ "_ATT") (.i n))
          (col ++ "_PCT") (.f (pctOf m n))
      | none => setNaN3 col d1
    else if isDigitStr (removeFirstDot dv.data) then
      if '.' ∈ dv.data then pySet d1 col (.f (parseDecQ dv.data))
      else pySet d1 col (.i (digitsVal dv.data))
    else if dv = "" ∨ strLower dv ∈ ["n/a", "-"] then
      pySet d1 col .nan
    else d1

/-! ### Parsing lemmas -/

theorem string_ext_of_data {s t : String} (h : s.data = t.data) : s = t := by
  cases s; cases t; simp only at h; rw [h]

theorem str_append_ne (cat a bl : String) (h : a ≠ bl) : cat ++ a ≠ cat ++ bl := by
  intro he
  apply h
  have hd : (cat ++ a).data = (cat ++ bl).data := by rw [he]
  rw [String.data_append, String.data_append] at hd
  exact string_ext_of_data (List.append_cancel_left hd)

theorem isDigit_not_ws {c : Char} (h : c.isDigit = true) : c.isWhitespace = false := by
  by_cases hw : c.isWhitespace = true
  · simp [Char.isWhitespace] at hw
    rcases hw with ((rfl | rfl) | rfl) | rfl <;> simp [Char.isDigit] at h
  · exact eq_false_of_ne_true hw

theorem isDigit_ne_dash {c : Char} (h : c.isDigit = true) : c ≠ '-' := by
  rintro rfl; exact absurd h (by decide)

theorem isDigit_ne_plus {c : Char} (h : c.isDigit = true) : c ≠ '+' := by
  rintro rfl; exact absurd h (by decide)

theorem dash_not_mem_of_digits {l : List Char} (h : allDigits l = true) : '-' ∉ l := by
  intro hm
  have := (List.all_eq_true.mp h) '-' hm
  exact absurd this (by decide)

theorem dropWhile_ws_of_digits {l : List Char} (h : allDigits l = true) :
    l.dropWhile Char.isWhitespace = l := by
  cases l with
  | nil => rfl
  | cons c t =>
    have hc : c.isDigit = true := (List.all_eq_true.mp h) c (List.mem_cons_self ..)
    rw [List.dropWhile_cons, isDigit_not_ws hc]
    simp

theorem pyStrip_of_digits {l : List Char} (h : allDigits l = true) : pyStrip l = l := by
  unfold pyStrip
  rw [dropWhile_ws_of_digits h]
  have hr : allDigits l.reverse = true := by
    simpa [allDigits, List.all_reverse] using h
  rw [dropWhile_ws_of_digits hr, List.reverse_reverse]

theorem parsePyInt_of_digits {l : List Char} (hne : l ≠ []) (h : allDigits l = true) :
    parsePyInt l = some ((digitsVal l : Int)) := by
  unfold parsePyInt
  rw [pyStrip_of_digits h]
  cases l with
  | nil => exact absurd rfl hne
  | cons c t =>
    have hc : c.isDigit = true := (List.all_eq_true.mp h) c (List.mem_cons_self ..)
    show parsePyIntCore (c :: t) = _
    simp only [parsePyIntCore]
    rw [if_neg (isDigit_ne_dash hc), if_neg (isDigit_ne_plus hc), if_pos h]

theorem splitOnChar_of_not_mem {c : Char} {l : List Char} (h : c ∉ l) :
    splitOnChar c l = [l] := by
  induction l with
  | nil => rfl
  | cons x xs ih =>
    have hx : x ≠ c := fun he => h (he ▸ List.mem_cons_self ..)
    have hxs : c ∉ xs := fun hm => h (List.mem_cons_of_mem _ hm)
    simp only [splitOnChar]
    rw [if_neg hx, ih hxs]
    rfl

theorem splitOnChar_append {c : Char} {a : List Char} (bl : List Char) (h : c ∉ a) :
    splitOnChar c (a ++ c :: bl) = a :: splitOnChar c bl := by
  induction a with
  | nil => simp [splitOnChar]
  | cons x xs ih =>
    have hx : x ≠ c := fun he => h (he ▸ List.mem_cons_self ..)
    have hxs : c ∉ xs := fun hm => h (List.mem_cons_of_mem _ hm)
    have hrec := ih hxs
    rw [List.cons_append]
    simp only [splitOnChar]
    rw [if_neg hx, hrec]
    simp

theorem parseMadeAtt_of_digits {mcs acs : List Char} (hm : mcs ≠ []) (hmd : allDigits mcs = true)
    (ha : acs ≠ []) (had : allDigits acs = true) :
    parseMadeAtt (String.mk (mcs ++ '-' :: acs)) =
      some ((digitsVal mcs : Int), (digitsVal acs : Int)) := by
  have hdata : (String.mk (mcs ++ '-' :: acs)).data = mcs ++ '-' :: acs := rfl
  have h1 := parsePyInt_of_digits hm hmd
  have h2 := parsePyInt_of_digits ha had
  unfold parseMadeAtt
  rw [hdata, splitOnChar_append acs (dash_not_mem_of_digits hmd),
    splitOnChar_of_not_mem (dash_not_mem_of_digits had)]
  show (match parsePyInt mcs, parsePyInt acs with
    | some m, some n => some (m, n)
    | _, _ => none) = _
  rw [h1, h2]

theorem dash_mem_mk (mcs acs : List Char) : '-' ∈ (String.mk (mcs ++ '-' :: acs)).data := by
  show '-' ∈ mcs ++ '-' :: acs
  exact List.mem_append_right _ (List.mem_cons_self ..)

/-! ### Lookups after composite-stat processing -/

theorem pySet3_lookups (d : PyDict) (cat : String) (v1 v2 v3 : PyVal) :
    pyLookup (pySet (pySet (pySet d (cat ++ "_MADE") v1) (cat ++ "_ATT") v2) (cat ++ "_PCT") v3)
        (cat ++ "_MADE") = some v1 ∧
    pyLookup (pySet (pySet (pySet d (cat ++ "_MADE") v1) (cat ++ "_ATT") v2) (cat ++ "_PCT") v3)
        (cat ++ "_ATT") = some v2 ∧
    pyLookup (pySet (pySet (pySet d (cat ++ "_MADE") v1) (cat ++ "_ATT") v2) (cat ++ "_PCT") v3)
        (cat ++ "_PCT") = some v3 := by
  have hPM : cat ++ "_PCT" ≠ cat ++ "_MADE" := str_append_ne _ _ _ (by decide)
  have hPA : cat ++ "_PCT" ≠ cat ++ "_ATT" := str_append_ne _ _ _ (by decide)
  have hAM : cat ++ "_ATT" ≠ cat ++ "_MADE" := str_append_ne _ _ _ (by decide)
  refine ⟨?_, ?_, ?_⟩
  · rw [pyLookup_pySet_ne _ _ _ _ hPM, pyLookup_pySet_ne _ _ _ _ hAM, pyLookup_pySet_self]
  · rw [pyLookup_pySet_ne _ _ _ _ hPA, pyLookup_pySet_self]
  · rw [pyLookup_pySet_self]

theorem setNaN3_lookups (d : PyDict) (cat : String) :
    pyLookup (setNaN3 cat d) (cat ++ "_MADE") = some .nan ∧
    pyLookup (setNaN3 cat d) (cat ++ "_ATT") = some .nan ∧
    pyLookup (setNaN3 cat d) (cat ++ "_PCT") = some .nan := by
  simpa [setNaN3] using pySet3_lookups d cat .nan .nan .nan

theorem setNaN3_preserve (cat : String) (d : PyDict) (k : String)
    (h1 : k ≠ cat ++ "_MADE") (h2 : k ≠ cat ++ "_ATT") (h3 : k ≠ cat ++ "_PCT") :
    pyLookup (setNaN3 cat d) k = pyLookup d k := by
  rw [setNaN3, pyLookup_pySet_ne _ _ _ _ (Ne.symm h3), pyLookup_pySet_ne _ _ _ _ (Ne.symm h2),
    pyLookup_pySet_ne _ _ _ _ (Ne.symm h1)]

/-- The composite loop body writes only the three derived columns of its
category: every other column is untouched (the Stat Normalizer's per-stat
failure never aborts the remaining stats). -/
theorem processCombined_preserve (dnp : Bool) (cat : String) (d : PyDict) (k : String)
    (h1 : k ≠ cat ++ "_MADE") (h2 : k ≠ cat ++ "_ATT") (h3 : k ≠ cat ++ "_PCT") :
    pyLookup (processCombined dnp cat d) k = pyLookup d k := by
  have hdnp : pyLookup (if dnp then setNaN3 cat d else d) k = pyLookup d k := by
    split_ifs with hd
    · exact setNaN3_preserve cat d k h1 h2 h3
    · rfl
  rcases hx : pyLookup d cat with _ | v
  · simpa [processCombined, hx] using hdnp
  · cases v with
    | s sv =>
      by_cases hdash : '-' ∈ sv.data
      · rcases hp : parseMadeAtt sv with _ | ⟨m, n⟩
        · simp only [processCombined, hx, if_pos hdash, hp]
          exact setNaN3_preserve cat d k h1 h2 h3
        · simp only [processCombined, hx, if_pos hdash, hp]
          rw [pyLookup_pySet_ne _ _ _ _ (Ne.symm h3), pyLookup_pySet_ne _ _ _ _ (Ne.symm h2),
            pyLookup_pySet_ne _ _ _ _ (Ne.symm h1)]
      · simpa [processCombined, hx, if_neg hdash] using hdnp
    | null => simpa [processCombined, hx] using hdnp
    | b bv => simpa [processCombined, hx] using hdnp
    | i iv => simpa [processCombined, hx] using hdnp
    | f fv => simpa [processCombined, hx] using hdnp
    | nan => simpa [processCombined, hx] using hdnp
    | arr av => simpa [processCombined, hx] using hdnp
    | obj ov => simpa [processCombined, hx] using hdnp

/-- With the DNP flag set, the composite loop always leaves all three derived
columns present (parsed values or NaN). -/
theorem processCombined_dnp_present (cat : String) (d : PyDict) :
    (pyLookup (processCombined true cat d) (cat ++ "_MADE")).isSome = true ∧
    (pyLookup (processCombined true cat d) (cat ++ "_ATT")).isSome = true ∧
    (pyLookup (processCombined true cat d) (cat ++ "_PCT")).isSome = true := by
  have hnan := setNaN3_lookups d cat
  rcases hx : pyLookup d cat with _ | v
  · simp [processCombined, hx, hnan.1, hnan.2.1, hnan.2.2]
  · cases v with
    | s sv =>
      by_cases hdash : '-' ∈ sv.data
      · rcases hp : parseMadeAtt sv with _ | ⟨m, n⟩
        · simp [processCombined, hx, if_pos hdash, hp, hnan.1, hnan.2.1, hnan.2.2]
        · have hset := pySet3_lookups d cat (.i m) (.i n) (.f (pctOf m n))
          simp [processCombined, hx, if_pos hdash, hp, hset.1, hset.2.1, hset.2.2]
      · simp [processCombined, hx, if_neg hdash, hnan.1, hnan.2.1, hnan.2.2]
    | null => simp [processCombined, hx, hnan.1, hnan.2.1, hnan.2.2]
    | b bv => simp [processCombined, hx, hnan.1, hnan.2.1, hnan.2.2]
    | i iv => simp [processCombined, hx, hnan.1, hnan.2.1, hnan.2.2]
    | f fv => simp [processCombined, hx, hnan.1, hnan.2.1, hnan.2.2]
    | nan => simp [processCombined, hx, hnan.1, hnan.2.1, hnan.2.2]
    | arr av => simp [processCombined, hx, hnan.1, hnan.2.1, hnan.2.2]
    | obj ov => simp [processCombined, hx, hnan.1, hnan.2.1, hnan.2.2]

theorem pyRound1_zero : pyRound1 0 = 0 := by norm_num [pyRound1, rhe]

theorem pctOf_pos {n : Int} (m : Int) (h : 0 < n) :
    pctOf m n = pyRound1 ((m : ℚ) / (n : ℚ) * 100) := by
  rw [pctOf, if_pos h]

theorem pctOf_zero (m : Int) : pctOf m 0 = 0 := by
  rw [pctOf, if_neg (by omega)]
  exact pyRound1_zero

theorem processCombined_success (dnp : Bool) (cat : String) (d : PyDict) {sv : String}
    (hlook : pyLookup d cat = some (.s sv)) (hdash : '-' ∈ sv.data) {m n : Int}
    (hparse : parseMadeAtt sv = some (m, n)) :
    processCombined dnp cat d =
      pySet (pySet (pySet d (cat ++ "_MADE") (.i m)) (cat ++ "_ATT") (.i n))
        (cat ++ "_PCT") (.f (pctOf m n)) := by
  simp only [processCombined, hlook, if_pos hdash, hparse]

/-- C1: for every composite shooting-stat display string "M-A" (M, A decimal
numerals), for each category FG/3PT/FT, at player and at team granularity, the
normalizer emits MADE = M, ATT = A, and PCT = round(M/A*100, 1) when A > 0 and
PCT = 0 when A = 0; "7-15" gives FG_MADE 7, FG_ATT 15, FG_PCT 46.7, and "0-0"
gives 0/0/0 (not null). -/
theorem combined_shooting_stat_normalization :
    (∀ cat ∈ combinedCats, ∀ (mcs acs : List Char) (dnp : Bool) (d : PyDict),
      mcs ≠ [] → allDigits mcs = true → acs ≠ [] → allDigits acs = true →
      pyLookup d cat = some (.s (String.mk (mcs ++ '-' :: acs))) →
      pyLookup (processCombined dnp cat d) (cat ++ "_MADE") = some (.i (digitsVal mcs)) ∧
      pyLookup (processCombined dnp cat d) (cat ++ "_ATT") = some (.i (digitsVal acs)) ∧
      (0 < digitsVal acs →
        pyLookup (processCombined dnp cat d) (cat ++ "_PCT") =
          some (.f (pyRound1 ((digitsVal mcs : ℚ) / (digitsVal acs : ℚ) * 100)))) ∧
      (digitsVal acs = 0 →
        pyLookup (processCombined dnp cat d) (cat ++ "_PCT") = some (.f 0))) ∧
    (∀ cat ∈ combinedCats, ∀ (mcs acs : List Char) (d : PyDict),
      mcs ≠ [] → allDigits mcs = true → acs ≠ [] → allDigits acs = true →
      pyLookup d cat = none →
      pyLookup (processTeamStat cat (String.mk (mcs ++ '-' :: acs)) d) (cat ++ "_MADE") =
        some (.i (digitsVal mcs)) ∧
      pyLookup (processTeamStat cat (String.mk (mcs ++ '-' :: acs)) d) (cat ++ "_ATT") =
        some (.i (digitsVal acs)) ∧
      (0 < digitsVal acs →
        pyLookup (processTeamStat cat (String.mk (mcs ++ '-' :: acs)) d) (cat ++ "_PCT") =
          some (.f (pyRound1 ((digitsVal mcs : ℚ) / (digitsVal acs : ℚ) * 100)))) ∧
      (digitsVal acs = 0 →
        pyLookup (processTeamStat cat (String.mk (mcs ++ '-' :: acs)) d) (cat ++ "_PCT") =
          some (.f 0))) ∧
    (pyLookup (processCombined false "FG" [("FG", .s "7-15")]) "FG_MADE" = some (.i 7) ∧
     pyLookup (processCombined false "FG" [("FG", .s "7-15")]) "FG_ATT" = some (.i 15) ∧
     pyLookup (processCombined false "FG" [("FG", .s "7-15")]) "FG_PCT" = some (.f (467 / 10))) ∧
    (pyLookup (processCombined false "FG" [("FG", .s "0-0")]) "FG_MADE" = some (.i 0) ∧
     pyLookup (processCombined false "FG" [("FG", .s "0-0")]) "FG_ATT" = some (.i 0) ∧
     pyLookup (processCombined false "FG" [("FG", .s "0-0")]) "FG_PCT" = some (.f 0)) := by
  have hplayer : ∀ cat ∈ combinedCats, ∀ (mcs acs : List Char) (dnp : Bool) (d : PyDict),
      mcs ≠ [] → allDigits mcs = true → acs ≠ [] → allDigits acs = true →
      pyLookup d cat = some (.s (String.mk (mcs ++ '-' :: acs))) →
      pyLookup (processCombined dnp cat d) (cat ++ "_MADE") = some (.i (digitsVal mcs)) ∧
      pyLookup (processCombined dnp cat d) (cat ++ "_ATT") = some (.i (digitsVal acs)) ∧
      (0 < digitsVal acs →
        pyLookup (processCombined dnp cat d) (cat ++ "_PCT") =
          some (.f (pyRound1 ((digitsVal mcs : ℚ) / (digitsVal acs : ℚ) * 100)))) ∧
      (digitsVal acs = 0 →
        pyLookup (processCombined dnp cat d) (cat ++ "_PCT") = some (.f 0)) := by
    intro cat _ mcs acs dnp d hm hmd ha had hlook
    have hdash := dash_mem_mk mcs acs
    have hparse := parseMadeAtt_of_digits hm hmd ha had
    have hred := processCombined_success dnp cat d hlook hdash hparse
    have hset := pySet3_lookups d cat (.i (digitsVal mcs)) (.i (digitsVal acs))
      (.f (pctOf (digitsVal mcs) (digitsVal acs)))
    refine ⟨?_, ?_, ?_, ?_⟩
    · rw [hred]; exact hset.1
    · rw [hred]; exact hset.2.1
    · intro hpos
      have hv : pctOf ((digitsVal mcs : Int)) ((digitsVal acs : Int)) =
          pyRound1 ((digitsVal mcs : ℚ) / (digitsVal acs : ℚ) * 100) := by
        rw [pctOf_pos _ (by exact_mod_cast hpos)]
        norm_num
      rw [hred, ← hv]
      exact hset.2.2
    · intro hz
      have hv : pctOf ((digitsVal mcs : Int)) ((digitsVal acs : Int)) = 0 := by
        rw [hz]
        exact_mod_cast pctOf_zero (digitsVal mcs : Int)
      rw [hred, ← hv]
      exact hset.2.2
  refine ⟨hplayer, ?_, ?_, ?_⟩
  · intro cat hcat mcs acs d hm hmd ha had hnone
    have hdash := dash_mem_mk mcs acs
    have hparse := parseMadeAtt_of_digits hm hmd ha had
    have hempty : cat ≠ "" := by
      intro hemp
      subst hemp
      exact absurd hcat (by decide)
    have hguard : ¬(cat = "" ∨ (pyLookup d cat).isSome = true) := by
      simp [hempty, hnone]
    have hred : processTeamStat cat (String.mk (mcs ++ '-' :: acs)) d =
        pySet (pySet (pySet (pySet d cat (.s (String.mk (mcs ++ '-' :: acs))))
            (cat ++ "_MADE") (.i (digitsVal mcs))) (cat ++ "_ATT") (.i (digitsVal acs)))
          (cat ++ "_PCT") (.f (pctOf (digitsVal mcs) (digitsVal acs))) := by
      simp only [processTeamStat, if_neg hguard, if_pos (And.intro hcat hdash), hparse]
    have hset := pySet3_lookups (pySet d cat (.s (String.mk (mcs ++ '-' :: acs)))) cat
      (.i (digitsVal mcs)) (.i (digitsVal acs)) (.f (pctOf (digitsVal mcs) (digitsVal acs)))
    refine ⟨?_, ?_, ?_, ?_⟩
    · rw [hred]; exact hset.1
    · rw [hred]; exact hset.2.1
    · intro hpos
      have hv : pctOf ((digitsVal mcs : Int)) ((digitsVal acs : Int)) =
          pyRound1 ((digitsVal mcs : ℚ) / (digitsVal acs : ℚ) * 100) := by
        rw [pctOf_pos _ (by exact_mod_cast hpos)]
        norm_num
      rw [hred, ← hv]
      exact hset.2.2
    · intro hz
      have hv : pctOf ((digitsVal mcs : Int)) ((digitsVal acs : Int)) = 0 := by
        rw [hz]
        exact_mod_cast pctOf_zero (digitsVal mcs : Int)
      rw [hred, ← hv]
      exact hset.2.2
  · have h := hplayer "FG" (by simp [combinedCats]) ['7'] ['1', '5'] false
      [("FG", .s "7-15")] (by decide) (by decide) (by decide) (by decide) rfl
    have e1 : digitsVal ['7'] = 7 := by decide
    have e2 : digitsVal ['1', '5'] = 15 := by decide
    have ec1 : ((digitsVal ['7'] : ℕ) : ℚ) = 7 := by rw [e1]; norm_num
    have ec2 : ((digitsVal ['1', '5'] : ℕ) : ℚ) = 15 := by rw [e2]; norm_num
    have epct : pyRound1 ((7 : ℚ) / (15 : ℚ) * 100) = 467 / 10 := by
      norm_num [pyRound1, rhe]
    refine ⟨?_, ?_, ?_⟩
    · have hh := h.1; rw [e1] at hh; exact_mod_cast hh
    · have hh := h.2.1; rw [e2] at hh; exact_mod_cast hh
    · have hh := h.2.2.1 (by decide)
      rw [ec1, ec2] at hh
      rw [epct] at hh
      exact hh
  · have h := hplayer "FG" (by simp [combinedCats]) ['0'] ['0'] false
      [("FG", .s "0-0")] (by decide) (by decide) (by decide) (by decide) rfl
    have e1 : digitsVal ['0'] = 0 := by decide
    refine ⟨?_, ?_, ?_⟩
    · have hh := h.1; rw [e1] at hh; exact_mod_cast hh
    · have hh := h.2.1; rw [e1] at hh; exact_mod_cast hh
    · exact h.2.2.2 e1

theorem combined_shooting_stat_normalization_witness :
    pyLookup (processTeamStat "FT" (String.mk ['3', '-', '4']) []) "FT_MADE" =
      some (.i (digitsVal ['3'])) :=
  ((combined_shooting_stat_normalization.2.1 "FT" (by decide) ['3'] ['4'] []
    (by decide) (by decide) (by decide) (by decide) rfl).1)

/-- C3 counterexample: the composite value "abc" has no separator, so the
composite branch is never entered and (for a non-DNP player) the three derived
fields are left absent from the record, not set to null. -/
theorem malformed_composite_no_separator_cex :
    pyLookup (processCombined false "FG" [("FG", PyVal.s "abc")]) "FG_MADE" = none ∧
    pyLookup (processCombined false "FG" [("FG", PyVal.s "abc")]) "FG_ATT" = none ∧
    pyLookup (processCombined false "FG" [("FG", PyVal.s "abc")]) "FG_PCT" = none ∧
    processCombined false "FG" [("FG", PyVal.s "abc")] = [("FG", PyVal.s "abc")] :=
  ⟨rfl, rfl, rfl, rfl⟩

/-- C3 (amended): a composite string containing the separator that fails to
parse as two integers yields the three derived fields explicitly null, at
player and team granularity, and never aborts the remaining stats; a string
without the separator leaves the fields untouched for a non-DNP player. -/
theorem malformed_composite_fields_null :
    (∀ cat ∈ combinedCats, ∀ (sv : String) (dnp : Bool) (d : PyDict),
      pyLookup d cat = some (.s sv) → '-' ∈ sv.data → parseMadeAtt sv = none →
      pyLookup (processCombined dnp cat d) (cat ++ "_MADE") = some .nan ∧
      pyLookup (processCombined dnp cat d) (cat ++ "_ATT") = some .nan ∧
      pyLookup (processCombined dnp cat d) (cat ++ "_PCT") = some .nan) ∧
    (∀ cat ∈ combinedCats, ∀ (dv : String) (d : PyDict),
      pyLookup d cat = none → '-' ∈ dv.data → parseMadeAtt dv = none →
      pyLookup (processTeamStat cat dv d) (cat ++ "_MADE") = some .nan ∧
      pyLookup (processTeamStat cat dv d) (cat ++ "_ATT") = some .nan ∧
      pyLookup (processTeamStat cat dv d) (cat ++ "_PCT") = some .nan) ∧
    (∀ (cat : String) (sv : String) (d : PyDict),
      pyLookup d cat = some (.s sv) → '-' ∉ sv.data →
      processCombined false cat d = d) ∧
    (∀ (dnp : Bool) (cat : String) (d : PyDict) (k : String),
      k ≠ cat ++ "_MADE" → k ≠ cat ++ "_ATT" → k ≠ cat ++ "_PCT" →
      pyLookup (processCombined dnp cat d) k = pyLookup d k) := by
  refine ⟨?_, ?_, ?_, ?_⟩
  · intro cat _ sv dnp d hlook hdash hparse
    have hred : processCombined dnp cat d = setNaN3 cat d := by
      simp only [processCombined, hlook, if_pos hdash, hparse]
    rw [hred]
    exact setNaN3_lookups d cat
  · intro cat hcat dv d hnone hdash hparse
    have hempty : cat ≠ "" := by
      intro hemp
      subst hemp
      exact absurd hcat (by decide)
    have hguard : ¬(cat = "" ∨ (pyLookup d cat).isSome = true) := by
      simp [hempty, hnone]
    have hred : processTeamStat cat dv d = setNaN3 cat (pySet d cat (.s dv)) := by
      simp only [processTeamStat, if_neg hguard, if_pos (And.intro hcat hdash), hparse]
    rw [hred]
    exact setNaN3_lookups _ cat
  · intro cat sv d hlook hdash
    simp only [processCombined, hlook, if_neg hdash, if_neg (Bool.false_ne_true)]
  · intro dnp cat d k h1 h2 h3
    exact processCombined_preserve dnp cat d k h1 h2 h3

theorem malformed_composite_fields_null_witness :
    pyLookup (processCombined false "FG" [("FG", PyVal.s "a-b")]) "FG_MADE" = some PyVal.nan :=
  (malformed_composite_fields_null.1 "FG" (by decide) "a-b" false [("FG", PyVal.s "a-b")]
    rfl (by decide) (by decide)).1

/-! ### DNP nulling: build stage and optimizer stage (claim about PlayerStatLine) -/

theorem pyLookup_addRawStats_not_mem (vs : List PyVal) :
    ∀ (ks ls : List String) (d : PyDict) (k : String), k ∉ effCols ks ls vs →
      pyLookup (addRawStats ks ls vs d) k = pyLookup d k := by
  induction vs with
  | nil =>
    intro ks ls d k _
    cases ks <;> cases ls <;> rfl
  | cons v vt ih =>
    intro ks ls d k hk
    cases ks with
    | nil => rfl
    | cons kk kt =>
      cases ls with
      | nil =>
        simp only [effCols, List.mem_cons, not_or] at hk
        simp only [addRawStats]
        rw [ih _ _ _ _ hk.2, pyLookup_pySet_ne _ _ _ _ (Ne.symm hk.1)]
      | cons lb lt =>
        simp only [effCols, List.mem_cons, not_or] at hk
        simp only [addRawStats]
        rw [ih _ _ _ _ hk.2, pyLookup_pySet_ne _ _ _ _ (Ne.symm hk.1)]

theorem setFold_not_mem (cols : List String) :
    ∀ (d : PyDict) (k : String), k ∉ cols →
      pyLookup (cols.foldl setNanCol d) k = pyLookup d k := by
  induction cols with
  | nil => intro d k _; rfl
  | cons c rest ih =>
    intro d k hk
    simp only [List.mem_cons, not_or] at hk
    simp only [List.foldl_cons]
    rw [ih _ _ hk.2, setNanCol, pyLookup_pySet_ne _ _ _ _ (Ne.symm hk.1)]

theorem setFold_mem (cols : List String) :
    ∀ (d : PyDict) (k : String), k ∈ cols →
      pyLookup (cols.foldl setNanCol d) k = some .nan := by
  induction cols with
  | nil => intro d k hk; exact absurd hk (List.not_mem_nil k)
  | cons c rest ih =>
    intro d k hk
    by_cases hkr : k ∈ rest
    · simp only [List.foldl_cons]
      exact ih _ _ hkr
    · have hkc : k = c := by
        rcases List.mem_cons.mp hk with h | h
        · exact h
        · exact absurd h hkr
      subst hkc
      simp only [List.foldl_cons]
      rw [setFold_not_mem rest _ _ hkr, setNanCol, pyLookup_pySet_self]

theorem condFold_not_mem (cols : List String) :
    ∀ (d : PyDict) (k : String), k ∉ cols →
      pyLookup (cols.foldl dnpCondSet d) k = pyLookup d k := by
  induction cols with
  | nil => intro d k _; rfl
  | cons c rest ih =>
    intro d k hk
    simp only [List.mem_cons, not_or] at hk
    simp only [List.foldl_cons]
    rw [ih _ _ hk.2, dnpCondSet]
    split_ifs with hp
    · rw [pyLookup_pySet_ne _ _ _ _ (Ne.symm hk.1)]
    · rfl

theorem condFold_mem (cols : List String) :
    ∀ (d : PyDict) (k : String), k ∈ cols → (pyLookup d k).isSome = true →
      pyLookup (cols.foldl dnpCondSet d) k = some .nan := by
  induction cols with
  | nil => intro d k hk _; exact absurd hk (List.not_mem_nil k)
  | cons c rest ih =>
    intro d k hk hpres
    by_cases hkc : k = c
    · subst hkc
      simp only [List.foldl_cons, dnpCondSet, if_pos hpres]
      by_cases hkr : k ∈ rest
      · exact ih _ _ hkr (by rw [pyLookup_pySet_self]; rfl)
      · rw [condFold_not_mem rest _ _ hkr, pyLookup_pySet_self]
    · have hkr : k ∈ rest := by
        rcases List.mem_cons.mp hk with h | h
        · exact absurd h hkc
        · exact h
      simp only [List.foldl_cons]
      have hstep : pyLookup (dnpCondSet d c) k = pyLookup d k := by
        rw [dnpCondSet]
        split_ifs with hp
        · rw [pyLookup_pySet_ne _ _ _ _ (fun he => hkc he.symm)]
        · rfl
      exact ih _ _ hkr (by rw [hstep]; exact hpres)

theorem renameFold_preserve (ps : List (String × String)) :
    ∀ (d : PyDict) (k : String), (∀ p ∈ ps, k ≠ p.1 ∧ k ≠ p.2) →
      pyLookup (ps.foldl renameStep d) k = pyLookup d k := by
  induction ps with
  | nil => intro d k _; rfl
  | cons p rest ih =>
    intro d k h
    have hp := h p (List.mem_cons_self ..)
    have hstep : pyLookup (renameStep d p) k = pyLookup d k := by
      rw [renameStep]
      rcases hl : pyLookup d p.1 with _ | v
      · rfl
      · rw [pyLookup_pySet_ne _ _ _ _ (Ne.symm hp.2), pyLookup_pyPop_ne _ _ _ (Ne.symm hp.1)]
    simp only [List.foldl_cons]
    rw [ih _ _ (fun q hq => h q (List.mem_cons_of_mem _ hq)), hstep]

theorem renamePlayer_preserve (d : PyDict) (k : String)
    (h : ∀ p ∈ renameMap, k ≠ p.1 ∧ k ≠ p.2) :
    pyLookup (renamePlayer d) k = pyLookup d k :=
  renameFold_preserve renameMap d k h

theorem processAllCombined_unfold (dnp : Bool) (d : PyDict) :
    processAllCombined dnp d =
      processCombined dnp "FT" (processCombined dnp "3PT" (processCombined dnp "FG" d)) := rfl

theorem processAllCombined_preserve (dnp : Bool) (d : PyDict) (k : String)
    (h : ∀ cat ∈ combinedCats, k ≠ cat ++ "_MADE" ∧ k ≠ cat ++ "_ATT" ∧ k ≠ cat ++ "_PCT") :
    pyLookup (processAllCombined dnp d) k = pyLookup d k := by
  rw [processAllCombined_unfold,
    processCombined_preserve _ _ _ _ (h "FT" (by decide)).1 (h "FT" (by decide)).2.1
      (h "FT" (by decide)).2.2,
    processCombined_preserve _ _ _ _ (h "3PT" (by decide)).1 (h "3PT" (by decide)).2.1
      (h "3PT" (by decide)).2.2,
    processCombined_preserve _ _ _ _ (h "FG" (by decide)).1 (h "FG" (by decide)).2.1
      (h "FG" (by decide)).2.2]

theorem processAllCombined_dnp_present (d : PyDict) :
    ∀ cat ∈ combinedCats,
      (pyLookup (processAllCombined true d) (cat ++ "_MADE")).isSome = true ∧
      (pyLookup (processAllCombined true d) (cat ++ "_ATT")).isSome = true ∧
      (pyLookup (processAllCombined true d) (cat ++ "_PCT")).isSome = true := by
  intro cat hcat
  rw [processAllCombined_unfold]
  have hFG := processCombined_dnp_present "FG" d
  have h3 := processCombined_dnp_present "3PT" (processCombined true "FG" d)
  have hFT := processCombined_dnp_present "FT"
    (processCombined true "3PT" (processCombined true "FG" d))
  rcases (by simpa [combinedCats] using hcat : cat = "FG" ∨ cat = "3PT" ∨ cat = "FT") with
    rfl | rfl | rfl
  · refine ⟨?_, ?_, ?_⟩ <;>
      rw [processCombined_preserve _ _ _ _ (by decide) (by decide) (by decide),
        processCombined_preserve _ _ _ _ (by decide) (by decide) (by decide)]
    · exact hFG.1
    · exact hFG.2.1
    · exact hFG.2.2
  · refine ⟨?_, ?_, ?_⟩ <;>
      rw [processCombined_preserve _ _ _ _ (by decide) (by decide) (by decide)]
    · exact h3.1
    · exact h3.2.1
    · exact h3.2.2
  · exact ⟨hFT.1, hFT.2.1, hFT.2.2⟩

/-- The nine derived composite columns. -/
def compositeCols : List String :=
  ["FG_MADE", "FG_ATT", "FG_PCT", "3PT_MADE", "3PT_ATT", "3PT_PCT",
   "FT_MADE", "FT_ATT", "FT_PCT"]

/-- C2: for a player whose did-not-play flag is true, after the Record Builder
and the Type Optimizer's DNP pass, every one of the nineteen numeric stat
fields (MIN, REB, OREB, DREB, AST, STL, BLK, TO, PF, PTS and the nine derived
FG/3PT/FT fields) is present and null, even when raw numeric values or
parseable composite strings were present in the source (the hypothesis only
excludes a raw stat column literally labelled "dnp", which would clobber the
flag column itself). -/
theorem dnp_forces_all_stat_fields_null
    (gid tid tname tab pid pname ppos pjersey : PyVal) (starter : Bool)
    (keys labels : List String) (vals : List PyVal)
    (hdnp : "dnp" ∉ effCols keys labels vals) :
    ∀ fld ∈ dnpStatColumns,
      pyLookup (optimizerDnpRow (buildPlayerRecord gid tid tname tab pid pname ppos pjersey
        starter true keys labels vals)) fld = some .nan := by
  intro fld hfld
  have hbase : pyLookup (basePlayerRecord gid tid tname tab pid pname ppos pjersey starter true)
      "dnp" = some (.b true) := rfl
  set d1 := addRawStats keys labels vals
    (basePlayerRecord gid tid tname tab pid pname ppos pjersey starter true) with hd1def
  set d2 := processAllCombined true d1 with hd2def
  set d3 := renamePlayer d2 with hd3def
  set d4 := dnpNullBasic true d3 with hd4def
  have hbuild : buildPlayerRecord gid tid tname tab pid pname ppos pjersey
      starter true keys labels vals = d4 := rfl
  have hd4unfold : d4 = dnpBasicFields.foldl setNanCol d3 := by
    rw [hd4def, dnpNullBasic, if_pos rfl]
  have h1 : pyLookup d1 "dnp" = some (.b true) := by
    rw [hd1def, pyLookup_addRawStats_not_mem _ _ _ _ _ hdnp]
    exact hbase
  have h2 : pyLookup d2 "dnp" = some (.b true) := by
    rw [hd2def, processAllCombined_preserve _ _ _ (by decide)]
    exact h1
  have h3 : pyLookup d3 "dnp" = some (.b true) := by
    rw [hd3def, renamePlayer_preserve _ _ (by decide)]
    exact h2
  have h4 : pyLookup d4 "dnp" = some (.b true) := by
    rw [hd4unfold, setFold_not_mem _ _ _ (by decide)]
    exact h3
  have hpres : (pyLookup d4 fld).isSome = true := by
    have hsplit : ∀ f ∈ dnpStatColumns, f ∈ dnpBasicFields ∨ f ∈ compositeCols := by decide
    rcases hsplit fld hfld with hb | hc
    · rw [hd4unfold, setFold_mem _ _ _ hb]
      rfl
    · have hd4eq : pyLookup d4 fld = pyLookup d2 fld := by
        have hnb : fld ∉ dnpBasicFields := by
          revert hc
          have : ∀ f ∈ compositeCols, f ∉ dnpBasicFields := by decide
          exact this fld
        have hnr : ∀ p ∈ renameMap, fld ≠ p.1 ∧ fld ≠ p.2 := by
          revert hc
          have : ∀ f ∈ compositeCols, ∀ p ∈ renameMap, f ≠ p.1 ∧ f ≠ p.2 := by decide
          exact this fld
        rw [hd4unfold, setFold_not_mem _ _ _ hnb, hd3def, renamePlayer_preserve _ _ hnr]
      rw [hd4eq]
      have hex : ∃ cat ∈ combinedCats,
          fld = cat ++ "_MADE" ∨ fld = cat ++ "_ATT" ∨ fld = cat ++ "_PCT" := by
        revert hc
        have : ∀ f ∈ compositeCols, ∃ cat ∈ combinedCats,
            f = cat ++ "_MADE" ∨ f = cat ++ "_ATT" ∨ f = cat ++ "_PCT" := by decide
        exact this fld
      obtain ⟨cat, hcat, hflde⟩ := hex
      have hp := processAllCombined_dnp_present d1 cat hcat
      rw [hd2def]
      rcases hflde with rfl | rfl | rfl
      · exact hp.1
      · exact hp.2.1
      · exact hp.2.2
  have hred : optimizerDnpRow d4 = dnpStatColumns.foldl dnpCondSet d4 := by
    simp only [optimizerDnpRow, h4]
    rfl
  rw [hbuild, hred]
  exact condFold_mem _ _ _ hfld hpres

theorem dnp_forces_all_stat_fields_null_witness :
    pyLookup (optimizerDnpRow (buildPlayerRecord PyVal.null PyVal.null PyVal.null PyVal.null
      PyVal.null PyVal.null PyVal.null PyVal.null false true
      ["FG", "points"] [] [PyVal.s "7-15", PyVal.i 14])) "FG_MADE" = some PyVal.nan :=
  dnp_forces_all_stat_fields_null PyVal.null PyVal.null PyVal.null PyVal.null PyVal.null
    PyVal.null PyVal.null PyVal.null false ["FG", "points"] [] [PyVal.s "7-15", PyVal.i 14]
    (by decide) "FG_MADE" (by decide)

/-! ### Field Extractor: raw-document access with Python exception semantics
(`get_game_details`, processor.py 154-360).  A raw document is a JSON mapping,
represented as `PyDict`; sub-values are `PyVal`.  Operations that raise in
Python (attribute/type/key/index errors, all caught by the per-event handler)
return `Except.error ()`. -/

/-- Python truthiness (`bool(v)`). -/
def truthy : PyVal → Bool
  | .null => false
  | .b v => v
  | .s v => !(v == "")
  | .i v => !(v == 0)
  | .f v => !(v == 0)
  | .nan => true
  | .arr l => !l.isEmpty
  | .obj l => !l.isEmpty

/-- Python `a or b`. -/
def pyOr (a bb : PyVal) : PyVal :=
  if truthy a then a else bb

/-- `v.get(k)` for a known dict. -/
def objGetD (l : PyDict) (k : String) (dflt : PyVal) : PyVal :=
  (pyLookup l k).getD dflt

/-- Python `v.get(k, default)`: AttributeError when `v` is not a dict. -/
def pyGetD : PyVal → String → PyVal → Except Unit PyVal
  | .obj l, k, dflt => .ok (objGetD l k dflt)
  | _, _, _ => .error ()

/-- Python `k in v` for a string `k`: key membership in a dict, element
equality in a list, substring test in a string; TypeError otherwise. -/
def pyContainsKey (k : String) : PyVal → Except Unit Bool
  | .obj l => .ok ((pyLookup l k).isSome)
  | .arr l => .ok (l.any fun v => match v with | .s t => t == k | _ => false)
  | .s t => .ok (decide (k.data <:+: t.data))
  | _ => .error ()

/-- Python `v[k]` for a string key: KeyError when absent, TypeError on
non-dicts. -/
def pySubscript : PyVal → String → Except Unit PyVal
  | .obj l, k =>
    match pyLookup l k with
    | some v => .ok v
    | none => .error ()
  | _, _ => .error ()

/-- Python `v[0]`: first list element (IndexError on an empty list), first
character of a string, TypeError otherwise. -/
def pyIndex0 : PyVal → Except Unit PyVal
  | .arr (x :: _) => .ok x
  | .s t =>
    match t.data with
    | c :: _ => .ok (.s (String.mk [c]))
    | [] => .error ()
  | _ => .error ()

/-- game_id resolution (processor.py 166-187): gameId field, header.id,
header.competitions[0].id, then the filename stem. -/
def gameIdFallback (fname : Option String) : PyVal :=
  match fname with
  | some nm => if nm ≠ "" ∧ nm ≠ "unknown" then .s nm else .s "unknown"
  | none => .s "unknown"

def gameIdStep (gd : PyDict) (fname : Option String) : Except Unit PyVal := do
  match pyLookup gd "gameId" with
  | some v => pure v
  | none =>
    match pyLookup gd "header" with
    | some hv => do
      let hasId ← pyContainsKey "id" hv
      if hasId then pySubscript hv "id"
      else do
        let hasComps ← pyContainsKey "competitions" hv
        if hasComps then do
          let comps ← pySubscript hv "competitions"
          match comps with
          | .arr (c0 :: _) => do
            let hasCId ← pyContainsKey "id" c0
            if hasCId then pySubscript c0 "id"
            else pure (gameIdFallback fname)
          | _ => pure (gameIdFallback fname)
        else pure (gameIdFallback fname)
    | none => pure (gameIdFallback fname)

/-- The `game_details` initializer literal (processor.py 192-209). -/
def detailsInit (gid : PyVal) : PyDict :=
  [("game_id", gid), ("date", .null), ("venue_id", .null), ("venue_name", .null),
   ("venue_city", .null), ("venue_state", .null), ("attendance", .null), ("status", .null),
   ("neutral_site", .null), ("format", .null), ("completed", .null), ("broadcast", .null),
   ("broadcast_market", .null), ("broadcast_type", .null), ("conference", .null),
   ("teams", .arr [])]

/-- Season extraction (processor.py 211-215): the value to assign, if any. -/
def seasonCompute (gd : PyDict) : Except Unit (Option PyVal) := do
  match pyLookup gd "season" with
  | some (.obj sl) => pure (some (objGetD sl "year" .null))
  | _ =>
    let hv := objGetD gd "header" (.obj [])
    let hasSeason ← pyContainsKey "season" hv
    if hasSeason then
      match hv with
      | .obj hl => do
        let yr ← pyGetD (objGetD hl "season" (.obj [])) "year" .null
        pure (some yr)
      | _ => pure none
    else pure none

def seasonStep (gd : PyDict) (dt : PyDict) : Except Unit PyDict := do
  let r ← seasonCompute gd
  pure (match r with
    | some v => pySet dt "season" v
    | none => dt)

/-- Boxscore availability and conference-group extraction (processor.py
217-227): the seven values to assign. -/
def boxscoreCompute (gd : PyDict) :
    Except Unit (PyVal × PyVal × PyVal × PyVal × PyVal × PyVal × PyVal) := do
  let hv := objGetD gd "header" (.obj [])
  let comps ← pyGetD hv "competitions" (.arr [.obj []])
  let competition ← pyIndex0 (pyOr comps (.arr [.obj []]))
  let grp ← pyGetD competition "groups" (.obj [])
  let bsrc ← pyGetD competition "boxscoreSource" .null
  let bav ← pyGetD competition "boxscoreAvailable" .null
  let pbp ← pyGetD competition "playByPlaySource" .null
  let confGame ← pyGetD competition "conferenceCompetition" .null
  let cid ← pyGetD grp "id" .null
  let cname ← pyGetD grp "name" .null
  let cabbr ← pyGetD grp "abbreviation" .null
  pure (bsrc, bav, pbp, confGame, cid, cname, cabbr)

def boxscoreStep (gd : PyDict) (dt : PyDict) : Except Unit PyDict := do
  let r ← boxscoreCompute gd
  pure (pySet (pySet (pySet (pySet (pySet (pySet (pySet dt
    "boxscore_source" r.1) "boxscore_available" r.2.1) "play_by_play_source" r.2.2.1)
    "is_conference_game" r.2.2.2.1) "conference_id" r.2.2.2.2.1)
    "conference_name" r.2.2.2.2.2.1) "conference_abbreviation" r.2.2.2.2.2.2)

/-- Date extraction (processor.py 230-231). -/
def dateStep (gd : PyDict) (dt : PyDict) : PyDict :=
  match pyLookup gd "date" with
  | some v => pySet dt "date" v
  | none => dt

/-- Venue extraction (processor.py 233-240): reads only `gameInfo.venue`; the
four values to assign when the venue object is truthy. -/
def venueCompute (gd : PyDict) : Except Unit (Option (PyVal × PyVal × PyVal × PyVal)) := do
  let vd ← pyGetD (objGetD gd "gameInfo" (.obj [])) "venue" (.obj [])
  if truthy vd then do
    let vid ← pyGetD vd "id" .null
    let vname ← pyGetD vd "fullName" .null
    let addr ← pyGetD vd "address" (.obj [])
    let city ← pyGetD addr "city" .null
    let vstate ← pyGetD addr "state" .null
    pure (some (vid, vname, city, vstate))
  else pure none

def venueStep (gd : PyDict) (dt : PyDict) : Except Unit PyDict := do
  let r ← venueCompute gd
  pure (match r with
    | some (vid, vname, city, vstate) =>
      pySet (pySet (pySet (pySet dt "venue_id" vid) "venue_name" vname)
        "venue_city" city) "venue_state" vstate
    | none => dt)

/-- Attendance extraction (processor.py 242-251): four-way fallback. -/
def attendanceCompute (gd : PyDict) : Except Unit (Option PyVal) := do
  let second : Except Unit (Option PyVal) :=
    match pyLookup gd "attendance" with
    | some v => pure (some v)
    | none => do
      let third : Except Unit (Option PyVal) :=
        match pyLookup gd "header" with
        | some hv => do
          let hasComps ← pyContainsKey "competitions" hv
          if hasComps then do
            let comps ← pySubscript hv "competitions"
            match comps with
            | .arr (c0 :: _) => do
              let att ← pyGetD c0 "attendance" .null
              pure (some att)
            | _ => pure none
          else pure none
        | none => pure none
      match pyLookup gd "boxscore" with
      | some bv => do
        let hasAtt ← pyContainsKey "attendance" bv
        if hasAtt then do
          let att ← pySubscript bv "attendance"
          pure (some att)
        else third
      | none => third
  match pyLookup gd "gameInfo" with
  | some giv => do
    let hasAtt ← pyContainsKey "attendance" giv
    if hasAtt then do
      let att ← pySubscript giv "attendance"
      pure (some att)
    else second
  | none => second

def attendanceStep (gd : PyDict) (dt : PyDict) : Except Unit PyDict := do
  let r ← attendanceCompute gd
  pure (match r with
    | some v => pySet dt "attendance" v
    | none => dt)

/-- The `status_type` probe (processor.py 253-260). -/
def statusTopLevel (gd : PyDict) : Except Unit PyVal :=
  match pyLookup gd "status" with
  | some sv => pyGetD sv "type" (.obj [])
  | none => pure .null

def statusTypeOf (gd : PyDict) : Except Unit PyVal := do
  match pyLookup gd "header" with
  | some hv => do
    let hasComps ← pyContainsKey "competitions" hv
    if hasComps then do
      let comps ← pySubscript hv "competitions"
      match comps with
      | .arr (c0 :: _) => do
        let hasStatus ← pyContainsKey "status" c0
        if hasStatus then do
          let sv ← pySubscript c0 "status"
          pyGetD sv "type" (.obj [])
        else pure .null
      | _ => pure .null
    else statusTopLevel gd
  | none => statusTopLevel gd

/-- Status extraction (processor.py 253-267): the status/completed pair with
the explicit null/False defaults. -/
def statusCompute (gd : PyDict) : Except Unit (PyVal × PyVal) := do
  let st ← statusTypeOf gd
  match st with
  | .obj sl =>
    if sl.isEmpty then pure (.null, .b false)
    else pure (objGetD sl "name" .null, objGetD sl "completed" (.b false))
  | _ => pure (.null, .b false)

def statusStep (gd : PyDict) (dt : PyDict) : Except Unit PyDict := do
  let r ← statusCompute gd
  pure (pySet (pySet dt "status" r.1) "completed" r.2)

/-- Neutral-site extraction (processor.py 269-273). -/
def neutralCompute (gd : PyDict) : Except Unit (Option PyVal) := do
  match pyLookup gd "header" with
  | some hv => do
    let hasComps ← pyContainsKey "competitions" hv
    if hasComps then do
      let comps ← pySubscript hv "competitions"
      match comps with
      | .arr (c0 :: _) => do
        let ns ← pyGetD c0 "neutralSite" (.b false)
        pure (some ns)
      | _ => pure none
    else pure none
  | none => pure none

def neutralStep (gd : PyDict) (dt : PyDict) : Except Unit PyDict := do
  let r ← neutralCompute gd
  pure (match r with
    | some v => pySet dt "neutral_site" v
    | none => dt)

/-- Format extraction (processor.py 276-282). -/
def formatCompute (gd : PyDict) : Except Unit (Option PyVal) := do
  match pyLookup gd "format" with
  | some v => pure (some v)
  | none =>
    match pyLookup gd "header" with
    | some hv => do
      let hasComps ← pyContainsKey "competitions" hv
      if hasComps then do
        let comps ← pySubscript hv "competitions"
        match comps with
        | .arr (c0 :: _) => do
          let hasFmt ← pyContainsKey "format" c0
          if hasFmt then do
            let fv ← pySubscript c0 "format"
            pure (some fv)
          else pure none
        | _ => pure none
      else pure none
    | none => pure none

def formatStep (gd : PyDict) (dt : PyDict) : Except Unit PyDict := do
  let r ← formatCompute gd
  pure (match r with
    | some v => pySet dt "format" v
    | none => dt)

/-! ### Broadcasts (`get_broadcasts` 117-120, `get_primary_broadcast` 123-151) -/

/-- `game_data.get('broadcasts', []) or header.competitions[0].broadcasts or
gameInfo.broadcasts` — the first truthy value wins, lists are not merged. -/
def getBroadcasts (gd : PyDict) : Except Unit PyVal := do
  let a := objGetD gd "broadcasts" (.arr [])
  if truthy a then pure a
  else do
    let comps ← pyGetD (objGetD gd "header" (.obj [])) "competitions" (.arr [.obj []])
    let c0 ← pyIndex0 comps
    let bb ← pyGetD c0 "broadcasts" (.arr [])
    if truthy bb then pure bb
    else pyGetD (objGetD gd "gameInfo" (.obj [])) "broadcasts" (.arr [])

/-- `broadcast.get('market', {}).get('type', '').lower()`. -/
def bcMarketType (bc : PyVal) : Except Unit String := do
  let m ← pyGetD bc "market" (.obj [])
  let t ← pyGetD m "type" (.s "")
  match t with
  | .s sv => pure (strLower sv)
  | _ => .error ()

/-- `broadcast.get('type', {}).get('shortName', '').lower()`. -/
def bcTypeName (bc : PyVal) : Except Unit String := do
  let t ← pyGetD bc "type" (.obj [])
  let n ← pyGetD t "shortName" (.s "")
  match n with
  | .s sv => pure (strLower sv)
  | _ => .error ()

/-- One selection loop: first entry satisfying the predicate. -/
def firstMatch (p : PyVal → Except Unit Bool) : List PyVal → Except Unit (Option PyVal)
  | [] => pure none
  | bc :: rest => do
    if (← p bc) then pure (some bc) else firstMatch p rest

/-- Tier 1: television type and national market (market is computed first, as
in the source). -/
def pTvNational (bc : PyVal) : Except Unit Bool := do
  let mk ← bcMarketType bc
  let tn ← bcTypeName bc
  pure (tn == "tv" && mk == "national")

/-- Tier 2: any television type. -/
def pTv (bc : PyVal) : Except Unit Bool := do
  let tn ← bcTypeName bc
  pure (tn == "tv")

/-- Tier 3: any national market. -/
def pNational (bc : PyVal) : Except Unit Bool := do
  let mk ← bcMarketType bc
  pure (mk == "national")

/-- `get_primary_broadcast`: None when the collected value is falsy, else the
four-tier selection; iterating a truthy non-list raises on its first element
access. -/
def getPrimaryBroadcast (gd : PyDict) : Except Unit (Option PyVal) := do
  let bj ← getBroadcasts gd
  if !truthy bj then pure none
  else
    match bj with
    | .arr l => do
      match (← firstMatch pTvNational l) with
      | some bc => pure (some bc)
      | none =>
        match (← firstMatch pTv l) with
        | some bc => pure (some bc)
        | none =>
          match (← firstMatch pNational l) with
          | some bc => pure (some bc)
          | none => pure l.head?
    | _ => .error ()

/-- Broadcast fields of `game_details` (processor.py 284-289). -/
def broadcastCompute (gd : PyDict) : Except Unit (Option (PyVal × PyVal × PyVal)) := do
  let pb ← getPrimaryBroadcast gd
  match pb with
  | some bc =>
    if truthy bc then do
      let bname ← pyGetD (← pyGetD bc "media" (.obj [])) "shortName" .null
      let bmarket ← pyGetD (← pyGetD bc "market" (.obj [])) "type" .null
      let btype ← pyGetD (← pyGetD bc "type" (.obj [])) "shortName" .null
      pure (some (bname, bmarket, btype))
    else pure none
  | none => pure none

def broadcastStep (gd : PyDict) (dt : PyDict) : Except Unit PyDict := do
  let r ← broadcastCompute gd
  pure (match r with
    | some (bname, bmarket, btype) =>
      pySet (pySet (pySet dt "broadcast" bname) "broadcast_market" bmarket)
        "broadcast_type" btype
    | none => dt)

/-! ### Team extraction (processor.py 291-317) -/

/-- One competitor's team_info dict (processor.py 298-315). -/
def buildTeamInfo (team : PyDict) (tl : PyDict) : Except Unit PyVal := do
  let slug ← pyGetD (objGetD tl "groups" (.obj [])) "slug" .null
  let base : PyDict :=
    [("id", objGetD tl "id" .null), ("name", objGetD tl "displayName" .null),
     ("abbreviation", objGetD tl "abbreviation" .null),
     ("location", objGetD tl "location" .null), ("nickname", objGetD tl "name" .null),
     ("color", objGetD tl "color" .null), ("home_away", objGetD team "homeAway" .null),
     ("score", objGetD team "score" .null), ("winner", objGetD team "winner" (.b false)),
     ("groups_slug", slug)]
  match pyLookup team "linescores" with
  | some (.arr ls) =>
    pure (.obj (base ++ [("linescores",
      .arr (ls.filterMap fun ln =>
        match ln with
        | .obj ll => some (objGetD ll "displayValue" .null)
        | _ => none))]))
  | _ => pure (.obj base)

/-- The competitor loop, keeping only dict entries with a dict `team`. -/
def buildTeams : List PyVal → Except Unit (List PyVal)
  | [] => pure []
  | t :: rest =>
    match t with
    | .obj tm =>
      match pyLookup tm "team" with
      | some (.obj tl) => do
        let ti ← buildTeamInfo tm tl
        let tail ← buildTeams rest
        pure (ti :: tail)
      | _ => buildTeams rest
    | _ => buildTeams rest

def teamsCompute (gd : PyDict) : Except Unit (Option (List PyVal)) := do
  match pyLookup gd "header" with
  | some hv => do
    let hasComps ← pyContainsKey "competitions" hv
    if hasComps then do
      let comps ← pySubscript hv "competitions"
      match comps with
      | .arr (c0 :: _) => do
        let hasCs ← pyContainsKey "competitors" c0
        if hasCs then do
          let cs ← pySubscript c0 "competitors"
          match cs with
          | .arr lteams => do
            let ts ← buildTeams lteams
            pure (some ts)
          | _ => pure none
        else pure none
      | _ => pure none
    else pure none
  | none => pure none

def teamsStep (gd : PyDict) (dt : PyDict) : Except Unit PyDict := do
  let r ← teamsCompute gd
  pure (match r with
    | some ts => pySet dt "teams" (.arr ts)
    | none => dt)

/-- The extraction of the `game_details` dict (processor.py 166-322, before
the play-by-play back-fill). -/
def detailsOf (gd : PyDict) (fname : Option String) : Except Unit PyDict := do
  let gid ← gameIdStep gd fname
  let d0 := detailsInit gid
  let d1 ← seasonStep gd d0
  let d2 ← boxscoreStep gd d1
  let d3 := dateStep gd d2
  let d4 ← venueStep gd d3
  let d5 ← attendanceStep gd d4
  let d6 ← statusStep gd d5
  let d7 ← neutralStep gd d6
  let d8 ← formatStep gd d7
  let d9 ← broadcastStep gd d8
  teamsStep gd d9

/-! ### Play-by-play back-fill (processor.py 319-358): mutates the raw
document's `plays` list in place. -/

/-- Python `==` on the scalar values used as lookup keys (NaN compares unequal
to itself; bool/int/float cross-compare as numbers). -/
def pyValEqShallow : PyVal → PyVal → Bool
  | .s x, .s y => x == y
  | .i x, .i y => x == y
  | .f x, .f y => x == y
  | .i x, .f y => ((x : ℚ)) == y
  | .f x, .i y => x == ((y : ℚ))
  | .b x, .b y => x == y
  | .b x, .i y => (if x then (1 : Int) else 0) == y
  | .i x, .b y => x == (if y then (1 : Int) else 0)
  | .b x, .f y => (if x then (1 : ℚ) else 0) == y
  | .f x, .b y => x == (if y then (1 : ℚ) else 0)
  | .null, .null => true
  | _, _ => false

/-- `team_lookup` (processor.py 320-322): id to name, last write wins. -/
def teamLookupOf (dt : PyDict) : List (PyVal × PyVal) :=
  match pyLookup dt "teams" with
  | some (.arr ts) =>
    ts.filterMap fun t =>
      match t with
      | .obj tl => some (objGetD tl "id" .null, objGetD tl "name" .null)
      | _ => none
  | _ => []

def lookupById (m : List (PyVal × PyVal)) (k : PyVal) : Option PyVal :=
  (m.reverse.find? fun p => pyValEqShallow p.1 k).map (·.2)

/-- The per-group athlete search (processor.py 346-358): within one stat
group's athletes list the inner break keeps the first match; later groups and
teams overwrite, so the overall result is the last group's first match. -/
def groupFirstAthlete (pid : PyVal) : List PyVal → Except Unit (Option PyVal)
  | [] => pure none
  | p :: rest => do
    let hasA ← pyContainsKey "athlete" p
    if hasA then
      match p with
      | .obj pl =>
        match pyLookup pl "athlete" with
        | some (.obj al) =>
          if pyValEqShallow (objGetD al "id" .null) pid then
            pure (some (objGetD al "displayName" (.s "")))
          else groupFirstAthlete pid rest
        | _ => groupFirstAthlete pid rest
      | _ => .error ()
    else groupFirstAthlete pid rest

def searchGroups (pid : PyVal) : List PyVal → Except Unit (Option PyVal)
  | [] => pure none
  | g :: rest => do
    let hasAth ← pyContainsKey "athletes" g
    let cur ←
      if hasAth then do
        let avs ← pySubscript g "athletes"
        match avs with
        | .arr al => groupFirstAthlete pid al
        | _ => pure none
      else pure none
    let later ← searchGroups pid rest
    pure (later <|> cur)

def searchTeamsPlayers (pid : PyVal) : List PyVal → Except Unit (Option PyVal)
  | [] => pure none
  | tp :: rest => do
    let hasStats ← pyContainsKey "statistics" tp
    let cur ←
      if hasStats then do
        let sts ← pySubscript tp "statistics"
        match sts with
        | .arr gs => searchGroups pid gs
        | _ => pure none
      else pure none
    let later ← searchTeamsPlayers pid rest
    pure (later <|> cur)

/-- Look an athlete's display name up in the raw box score (processor.py
346-358). -/
def findAthleteName (gd : PyDict) (pid : PyVal) : Except Unit (Option PyVal) := do
  match pyLookup gd "boxscore" with
  | some bv => do
    let hasPl ← pyContainsKey "players" bv
    if hasPl then do
      let pls ← pySubscript bv "players"
      match pls with
      | .arr tps => searchTeamsPlayers pid tps
      | .s _ => pure none
      | .obj _ => pure none
      | _ => .error ()
    else pure none
  | none => pure none

def fillAthlete (gd : PyDict) (play : PyVal) (key : String) : Except Unit PyVal := do
  let has ← pyContainsKey key play
  if has then
    match play with
    | .obj pl =>
      match pyLookup pl key with
      | some (.obj al) => do
        let pid := objGetD al "id" .null
        let dn := objGetD al "displayName" .null
        if truthy pid && !truthy dn then do
          match (← findAthleteName gd pid) with
          | some nm => pure (.obj (pySet pl key (.obj (pySet al "displayName" nm))))
          | none => pure play
        else pure play
      | _ => pure play
    | _ => .error ()
  else pure play

/-- One play's in-place repair (processor.py 327-358): fill an empty team name
from the team lookup, then empty athlete names from the box score. -/
def fillPlay (gd : PyDict) (tlk : List (PyVal × PyVal)) (play : PyVal) :
    Except Unit PyVal := do
  let play1 :=
    match play with
    | .obj pl =>
      match pyLookup pl "team" with
      | some (.obj tml) =>
        let tid := objGetD tml "id" .null
        if truthy tid && !truthy (objGetD tml "name" .null) then
          match lookupById tlk tid with
          | some nm => .obj (pySet pl "team" (.obj (pySet tml "name" nm)))
          | none => play
        else play
      | _ => play
    | _ => play
  let play2 ← fillAthlete gd play1 "athlete1"
  fillAthlete gd play2 "athlete2"

def mapFillPlays (gd : PyDict) (tlk : List (PyVal × PyVal)) :
    List PyVal → Except Unit (List PyVal)
  | [] => pure []
  | p :: rest => do
    let p2 ← fillPlay gd tlk p
    let r2 ← mapFillPlays gd tlk rest
    pure (p2 :: r2)

/-- The back-fill pass (processor.py 324-358): rewrites only the raw
document's `plays` entry. -/
def backfillPlays (gd : PyDict) (dt : PyDict) : Except Unit PyDict := do
  match pyLookup gd "plays" with
  | some (.arr plays) => do
    let plays2 ← mapFillPlays gd (teamLookupOf dt) plays
    pure (pySet gd "plays" (.arr plays2))
  | _ => pure gd

/-- One call of `get_game_details` on a dict document: the returned details
dict together with the (possibly mutated) document. -/
def getGameDetailsRun (gd : PyDict) (fname : Option String) :
    Except Unit (PyDict × PyDict) := do
  let dt ← detailsOf gd fname
  let gd2 ← backfillPlays gd dt
  pure (dt, gd2)

/-! ### Reasoning principles for the extractor steps -/

theorem except_bind_ok {α β : Type} {e : Except Unit α} {f : α → Except Unit β} {bv : β}
    (h : (e >>= f) = .ok bv) : ∃ a, e = .ok a ∧ f a = .ok bv := by
  cases e with
  | error u => simp [Bind.bind, Except.bind] at h
  | ok a => exact ⟨a, rfl, by simpa [Bind.bind, Except.bind] using h⟩

theorem except_map_ok {α β : Type} {e : Except Unit α} {f : α → β} {bv : β}
    (h : (do let r ← e; pure (f r) : Except Unit β) = .ok bv) :
    ∃ r, e = .ok r ∧ bv = f r := by
  obtain ⟨a, ha, hf⟩ := except_bind_ok h
  refine ⟨a, ha, ?_⟩
  simpa [Pure.pure, Except.pure] using hf.symm

theorem seasonStep_preserve {gd dt dt' : PyDict} (h : seasonStep gd dt = .ok dt')
    (k : String) (hk : k ≠ "season") : pyLookup dt' k = pyLookup dt k := by
  unfold seasonStep at h
  obtain ⟨r, _, rfl⟩ := except_map_ok h
  cases r with
  | none => rfl
  | some v => exact pyLookup_pySet_ne _ _ _ _ (Ne.symm hk)

theorem boxscoreStep_preserve {gd dt dt' : PyDict} (h : boxscoreStep gd dt = .ok dt')
    (k : String) (h1 : k ≠ "boxscore_source") (h2 : k ≠ "boxscore_available")
    (h3 : k ≠ "play_by_play_source") (h4 : k ≠ "is_conference_game")
    (h5 : k ≠ "conference_id") (h6 : k ≠ "conference_name")
    (h7 : k ≠ "conference_abbreviation") : pyLookup dt' k = pyLookup dt k := by
  unfold boxscoreStep at h
  obtain ⟨r, _, rfl⟩ := except_map_ok h
  rw [pyLookup_pySet_ne _ _ _ _ (Ne.symm h7), pyLookup_pySet_ne _ _ _ _ (Ne.symm h6),
    pyLookup_pySet_ne _ _ _ _ (Ne.symm h5), pyLookup_pySet_ne _ _ _ _ (Ne.symm h4),
    pyLookup_pySet_ne _ _ _ _ (Ne.symm h3), pyLookup_pySet_ne _ _ _ _ (Ne.symm h2),
    pyLookup_pySet_ne _ _ _ _ (Ne.symm h1)]

theorem dateStep_preserve (gd dt : PyDict) (k : String) (hk : k ≠ "date") :
    pyLookup (dateStep gd dt) k = pyLookup dt k := by
  unfold dateStep
  cases pyLookup gd "date" with
  | none => rfl
  | some v => exact pyLookup_pySet_ne _ _ _ _ (Ne.symm hk)

theorem venueStep_preserve {gd dt dt' : PyDict} (h : venueStep gd dt = .ok dt')
    (k : String) (h1 : k ≠ "venue_id") (h2 : k ≠ "venue_name")
    (h3 : k ≠ "venue_city") (h4 : k ≠ "venue_state") :
    pyLookup dt' k = pyLookup dt k := by
  unfold venueStep at h
  obtain ⟨r, _, rfl⟩ := except_map_ok h
  cases r with
  | none => rfl
  | some q =>
    obtain ⟨vid, vname, city, vstate⟩ := q
    rw [pyLookup_pySet_ne _ _ _ _ (Ne.symm h4), pyLookup_pySet_ne _ _ _ _ (Ne.symm h3),
      pyLookup_pySet_ne _ _ _ _ (Ne.symm h2), pyLookup_pySet_ne _ _ _ _ (Ne.symm h1)]

theorem attendanceStep_preserve {gd dt dt' : PyDict} (h : attendanceStep gd dt = .ok dt')
    (k : String) (hk : k ≠ "attendance") : pyLookup dt' k = pyLookup dt k := by
  unfold attendanceStep at h
  obtain ⟨r, _, rfl⟩ := except_map_ok h
  cases r with
  | none => rfl
  | some v => exact pyLookup_pySet_ne _ _ _ _ (Ne.symm hk)

theorem statusStep_preserve {gd dt dt' : PyDict} (h : statusStep gd dt = .ok dt')
    (k : String) (h1 : k ≠ "status") (h2 : k ≠ "completed") :
    pyLookup dt' k = pyLookup dt k := by
  unfold statusStep at h
  obtain ⟨r, _, rfl⟩ := except_map_ok h
  rw [pyLookup_pySet_ne _ _ _ _ (Ne.symm h2), pyLookup_pySet_ne _ _ _ _ (Ne.symm h1)]

theorem neutralStep_preserve {gd dt dt' : PyDict} (h : neutralStep gd dt = .ok dt')
    (k : String) (hk : k ≠ "neutral_site") : pyLookup dt' k = pyLookup dt k := by
  unfold neutralStep at h
  obtain ⟨r, _, rfl⟩ := except_map_ok h
  cases r with
  | none => rfl
  | some v => exact pyLookup_pySet_ne _ _ _ _ (Ne.symm hk)

theorem formatStep_preserve {gd dt dt' : PyDict} (h : formatStep gd dt = .ok dt')
    (k : String) (hk : k ≠ "format") : pyLookup dt' k = pyLookup dt k := by
  unfold formatStep at h
  obtain ⟨r, _, rfl⟩ := except_map_ok h
  cases r with
  | none => rfl
  | some v => exact pyLookup_pySet_ne _ _ _ _ (Ne.symm hk)

theorem broadcastStep_preserve {gd dt dt' : PyDict} (h : broadcastStep gd dt = .ok dt')
    (k : String) (h1 : k ≠ "broadcast") (h2 : k ≠ "broadcast_market")
    (h3 : k ≠ "broadcast_type") : pyLookup dt' k = pyLookup dt k := by
  unfold broadcastStep at h
  obtain ⟨r, _, rfl⟩ := except_map_ok h
  cases r with
  | none => rfl
  | some q =>
    obtain ⟨bname, bmarket, btype⟩ := q
    rw [pyLookup_pySet_ne _ _ _ _ (Ne.symm h3), pyLookup_pySet_ne _ _ _ _ (Ne.symm h2),
      pyLookup_pySet_ne _ _ _ _ (Ne.symm h1)]

theorem teamsStep_preserve {gd dt dt' : PyDict} (h : teamsStep gd dt = .ok dt')
    (k : String) (hk : k ≠ "teams") : pyLookup dt' k = pyLookup dt k := by
  unfold teamsStep at h
  obtain ⟨r, _, rfl⟩ := except_map_ok h
  cases r with
  | none => rfl
  | some ts => exact pyLookup_pySet_ne _ _ _ _ (Ne.symm hk)

/-- Decomposition of a successful extraction into its step results. -/
theorem detailsOf_decomp {gd : PyDict} {fname : Option String} {d : PyDict}
    (h : detailsOf gd fname = .ok d) :
    ∃ gid d1 d2 d4 d5 d6 d7 d8 d9,
      gameIdStep gd fname = .ok gid ∧
      seasonStep gd (detailsInit gid) = .ok d1 ∧
      boxscoreStep gd d1 = .ok d2 ∧
      venueStep gd (dateStep gd d2) = .ok d4 ∧
      attendanceStep gd d4 = .ok d5 ∧
      statusStep gd d5 = .ok d6 ∧
      neutralStep gd d6 = .ok d7 ∧
      formatStep gd d7 = .ok d8 ∧
      broadcastStep gd d8 = .ok d9 ∧
      teamsStep gd d9 = .ok d := by
  unfold detailsOf at h
  obtain ⟨gid, hgid, h⟩ := except_bind_ok h
  obtain ⟨d1, h1, h⟩ := except_bind_ok h
  obtain ⟨d2, h2, h⟩ := except_bind_ok h
  obtain ⟨d4, h4, h⟩ := except_bind_ok h
  obtain ⟨d5, h5, h⟩ := except_bind_ok h
  obtain ⟨d6, h6, h⟩ := except_bind_ok h
  obtain ⟨d7, h7, h⟩ := except_bind_ok h
  obtain ⟨d8, h8, h⟩ := except_bind_ok h
  obtain ⟨d9, h9, h⟩ := except_bind_ok h
  exact ⟨gid, d1, d2, d4, d5, d6, d7, d8, d9, hgid, h1, h2, h4, h5, h6, h7, h8, h9, h⟩

/-- All detail keys any step can write. -/
def detailsWrittenKeys : List String :=
  ["season", "boxscore_source", "boxscore_available", "play_by_play_source",
   "is_conference_game", "conference_id", "conference_name", "conference_abbreviation",
   "date", "venue_id", "venue_name", "venue_city", "venue_state", "attendance",
   "status", "completed", "neutral_site", "format", "broadcast", "broadcast_market",
   "broadcast_type", "teams"]

theorem detailsInit_lookup_ne_gameid (gid gid' : PyVal) (k : String) (hg : k ≠ "game_id") :
    pyLookup (detailsInit gid) k = pyLookup (detailsInit gid') k := by
  simp only [detailsInit, pyLookup]
  rw [if_neg (fun he : ("game_id" : String) = k => hg he.symm),
    if_neg (fun he : ("game_id" : String) = k => hg he.symm)]

/-- A key never assigned by any extraction step keeps its initializer value
(or stays absent). -/
theorem detailsOf_lookup_unwritten {gd : PyDict} {fname : Option String} {d : PyDict}
    (h : detailsOf gd fname = .ok d) (k : String)
    (hk : ∀ s ∈ detailsWrittenKeys, k ≠ s) (hg : k ≠ "game_id") :
    pyLookup d k = pyLookup (detailsInit .null) k := by
  obtain ⟨gid, d1, d2, d4, d5, d6, d7, d8, d9, hgid, h1, h2, h4, h5, h6, h7, h8, h9, h10⟩ :=
    detailsOf_decomp h
  rw [teamsStep_preserve h10 k (hk "teams" (by decide)),
    broadcastStep_preserve h9 k (hk "broadcast" (by decide))
      (hk "broadcast_market" (by decide)) (hk "broadcast_type" (by decide)),
    formatStep_preserve h8 k (hk "format" (by decide)),
    neutralStep_preserve h7 k (hk "neutral_site" (by decide)),
    statusStep_preserve h6 k (hk "status" (by decide)) (hk "completed" (by decide)),
    attendanceStep_preserve h5 k (hk "attendance" (by decide)),
    venueStep_preserve h4 k (hk "venue_id" (by decide)) (hk "venue_name" (by decide))
      (hk "venue_city" (by decide)) (hk "venue_state" (by decide)),
    dateStep_preserve gd d2 k (hk "date" (by decide)),
    boxscoreStep_preserve h2 k (hk "boxscore_source" (by decide))
      (hk "boxscore_available" (by decide)) (hk "play_by_play_source" (by decide))
      (hk "is_conference_game" (by decide)) (hk "conference_id" (by decide))
      (hk "conference_name" (by decide)) (hk "conference_abbreviation" (by decide)),
    seasonStep_preserve h1 k (hk "season" (by decide))]
  exact detailsInit_lookup_ne_gameid gid PyVal.null k hg

/-- The venue fields of the extracted details are exactly what
`venueCompute` (which reads only `gameInfo.venue`) produced: null quadruple
when that path is absent or falsy, its values otherwise. -/
theorem detailsOf_venue_fields {gd : PyDict} {fname : Option String} {d : PyDict}
    (h : detailsOf gd fname = .ok d) :
    (venueCompute gd = .ok none →
      pyLookup d "venue_id" = some .null ∧ pyLookup d "venue_name" = some .null ∧
      pyLookup d "venue_city" = some .null ∧ pyLookup d "venue_state" = some .null) ∧
    (∀ vid vname city vstate, venueCompute gd = .ok (some (vid, vname, city, vstate)) →
      pyLookup d "venue_id" = some vid ∧ pyLookup d "venue_name" = some vname ∧
      pyLookup d "venue_city" = some city ∧ pyLookup d "venue_state" = some vstate) := by
  obtain ⟨gid, d1, d2, d4, d5, d6, d7, d8, d9, hgid, h1, h2, h4, h5, h6, h7, h8, h9, h10⟩ :=
    detailsOf_decomp h
  have hchain : ∀ k : String, k = "venue_id" ∨ k = "venue_name" ∨ k = "venue_city" ∨
      k = "venue_state" → pyLookup d k = pyLookup d4 k := by
    intro k hkor
    have hne : ∀ s : String, s ∈ (["teams", "broadcast", "broadcast_market", "broadcast_type",
        "format", "neutral_site", "status", "completed", "attendance"] : List String) →
        k ≠ s := by
      rcases hkor with rfl | rfl | rfl | rfl <;> decide
    rw [teamsStep_preserve h10 k (hne "teams" (by decide)),
      broadcastStep_preserve h9 k (hne "broadcast" (by decide))
        (hne "broadcast_market" (by decide)) (hne "broadcast_type" (by decide)),
      formatStep_preserve h8 k (hne "format" (by decide)),
      neutralStep_preserve h7 k (hne "neutral_site" (by decide)),
      statusStep_preserve h6 k (hne "status" (by decide)) (hne "completed" (by decide)),
      attendanceStep_preserve h5 k (hne "attendance" (by decide))]
  have hback : ∀ k : String, k = "venue_id" ∨ k = "venue_name" ∨ k = "venue_city" ∨
      k = "venue_state" → pyLookup (dateStep gd d2) k = some PyVal.null := by
    intro k hkor
    have hdk : k ≠ "date" := by rcases hkor with rfl | rfl | rfl | rfl <;> decide
    rw [dateStep_preserve gd d2 k hdk]
    have hb : ∀ s : String, s ∈ (["boxscore_source", "boxscore_available",
        "play_by_play_source", "is_conference_game", "conference_id", "conference_name",
        "conference_abbreviation", "season"] : List String) → k ≠ s := by
      rcases hkor with rfl | rfl | rfl | rfl <;> decide
    rw [boxscoreStep_preserve h2 k (hb "boxscore_source" (by decide))
        (hb "boxscore_available" (by decide)) (hb "play_by_play_source" (by decide))
        (hb "is_conference_game" (by decide)) (hb "conference_id" (by decide))
        (hb "conference_name" (by decide)) (hb "conference_abbreviation" (by decide)),
      seasonStep_preserve h1 k (hb "season" (by decide))]
    rcases hkor with rfl | rfl | rfl | rfl <;> rfl
  unfold venueStep at h4
  obtain ⟨r, hr, hd4⟩ := except_map_ok h4
  constructor
  · intro hvc
    rw [hvc] at hr
    injection hr with hr
    subst hr
    simp only at hd4
    subst hd4
    refine ⟨?_, ?_, ?_, ?_⟩ <;>
      [rw [hchain _ (by left; rfl)]; rw [hchain _ (by right; left; rfl)];
       rw [hchain _ (by right; right; left; rfl)]; rw [hchain _ (by right; right; right; rfl)]] <;>
      [exact hback _ (by left; rfl); exact hback _ (by right; left; rfl);
       exact hback _ (by right; right; left; rfl); exact hback _ (by right; right; right; rfl)]
  · intro vid vname city vstate hvc
    rw [hvc] at hr
    injection hr with hr
    subst hr
    simp only at hd4
    subst hd4
    have e1 : ("venue_id" : String) ≠ "venue_name" := by decide
    refine ⟨?_, ?_, ?_, ?_⟩
    · rw [hchain _ (by left; rfl), pyLookup_pySet_ne _ _ _ _ (by decide),
        pyLookup_pySet_ne _ _ _ _ (by decide), pyLookup_pySet_ne _ _ _ _ (by decide),
        pyLookup_pySet_self]
    · rw [hchain _ (by right; left; rfl), pyLookup_pySet_ne _ _ _ _ (by decide),
        pyLookup_pySet_ne _ _ _ _ (by decide), pyLookup_pySet_self]
    · rw [hchain _ (by right; right; left; rfl), pyLookup_pySet_ne _ _ _ _ (by decide),
        pyLookup_pySet_self]
    · rw [hchain _ (by right; right; right; rfl), pyLookup_pySet_self]

/-- The broadcast fields of the extracted details are exactly what
`broadcastCompute` produced: null triple when there is no (truthy) primary
broadcast, its values otherwise. -/
theorem detailsOf_broadcast_fields {gd : PyDict} {fname : Option String} {d : PyDict}
    (h : detailsOf gd fname = .ok d) :
    (broadcastCompute gd = .ok none →
      pyLookup d "broadcast" = some .null ∧ pyLookup d "broadcast_market" = some .null ∧
      pyLookup d "broadcast_type" = some .null) ∧
    (∀ bname bmarket btype, broadcastCompute gd = .ok (some (bname, bmarket, btype)) →
      pyLookup d "broadcast" = some bname ∧ pyLookup d "broadcast_market" = some bmarket ∧
      pyLookup d "broadcast_type" = some btype) := by
  obtain ⟨gid, d1, d2, d4, d5, d6, d7, d8, d9, hgid, h1, h2, h4, h5, h6, h7, h8, h9, h10⟩ :=
    detailsOf_decomp h
  have hchain : ∀ k : String, k = "broadcast" ∨ k = "broadcast_market" ∨
      k = "broadcast_type" → pyLookup d k = pyLookup d9 k := by
    intro k hkor
    have hne : ∀ s : String, s ∈ (["teams"] : List String) → k ≠ s := by
      rcases hkor with rfl | rfl | rfl <;> decide
    rw [teamsStep_preserve h10 k (hne "teams" (by decide))]
  have hback : ∀ k : String, k = "broadcast" ∨ k = "broadcast_market" ∨
      k = "broadcast_type" → pyLookup d8 k = some PyVal.null := by
    intro k hkor
    have hb : ∀ s : String, s ∈ (["format", "neutral_site", "status", "completed",
        "attendance", "venue_id", "venue_name", "venue_city", "venue_state", "date",
        "boxscore_source", "boxscore_available", "play_by_play_source",
        "is_conference_game", "conference_id", "conference_name",
        "conference_abbreviation", "season"] : List String) → k ≠ s := by
      rcases hkor with rfl | rfl | rfl <;> decide
    rw [formatStep_preserve h8 k (hb "format" (by decide)),
      neutralStep_preserve h7 k (hb "neutral_site" (by decide)),
      statusStep_preserve h6 k (hb "status" (by decide)) (hb "completed" (by decide)),
      attendanceStep_preserve h5 k (hb "attendance" (by decide)),
      venueStep_preserve h4 k (hb "venue_id" (by decide)) (hb "venue_name" (by decide))
        (hb "venue_city" (by decide)) (hb "venue_state" (by decide)),
      dateStep_preserve gd d2 k (hb "date" (by decide)),
      boxscoreStep_preserve h2 k (hb "boxscore_source" (by decide))
        (hb "boxscore_available" (by decide)) (hb "play_by_play_source" (by decide))
        (hb "is_conference_game" (by decide)) (hb "conference_id" (by decide))
        (hb "conference_name" (by decide)) (hb "conference_abbreviation" (by decide)),
      seasonStep_preserve h1 k (hb "season" (by decide))]
    rcases hkor with rfl | rfl | rfl <;> rfl
  unfold broadcastStep at h9
  obtain ⟨r, hr, hd9⟩ := except_map_ok h9
  constructor
  · intro hbc
    rw [hbc] at hr
    injection hr with hr
    subst hr
    simp only at hd9
    subst hd9
    exact ⟨by rw [hchain _ (by left; rfl)]; exact hback _ (by left; rfl),
      by rw [hchain _ (by right; left; rfl)]; exact hback _ (by right; left; rfl),
      by rw [hchain _ (by right; right; rfl)]; exact hback _ (by right; right; rfl)⟩
  · intro bname bmarket btype hbc
    rw [hbc] at hr
    injection hr with hr
    subst hr
    simp only at hd9
    subst hd9
    refine ⟨?_, ?_, ?_⟩
    · rw [hchain _ (by left; rfl), pyLookup_pySet_ne _ _ _ _ (by decide),
        pyLookup_pySet_ne _ _ _ _ (by decide), pyLookup_pySet_self]
    · rw [hchain _ (by right; left; rfl), pyLookup_pySet_ne _ _ _ _ (by decide),
        pyLookup_pySet_self]
    · rw [hchain _ (by right; right; rfl), pyLookup_pySet_self]

/-- A document with no `gameInfo` at all but a venue under
`header.competitions[0].venue`. -/
def docHeaderVenue : PyDict :=
  [("header", .obj [("competitions", .arr [.obj [("venue",
    .obj [("fullName", .s "Fallback Arena"),
          ("address", .obj [("city", .s "Springfield"), ("state", .s "IL")])])]])])]

/-- C4 counterexample: the extractor leaves every venue field null on a
document whose only venue lives at `header.competitions[0].venue` — there is
no fallback probing of that path (nor of a top-level venue field). -/
theorem venue_no_fallback_cex :
    (detailsOf docHeaderVenue none).map (fun d => pyLookup d "venue_name") =
      .ok (some PyVal.null) ∧
    (detailsOf docHeaderVenue none).map (fun d => pyLookup d "venue_city") =
      .ok (some PyVal.null) ∧
    (detailsOf docHeaderVenue none).map (fun d => pyLookup d "venue_state") =
      .ok (some PyVal.null) ∧
    pyLookup docHeaderVenue "gameInfo" = none ∧
    (do
      let comps ← pyGetD (objGetD docHeaderVenue "header" (.obj []))
        "competitions" (.arr [])
      let c0 ← pyIndex0 comps
      let v ← pyGetD c0 "venue" (.obj [])
      pyGetD v "fullName" .null) = .ok (.s "Fallback Arena") :=
  ⟨rfl, rfl, rfl, rfl, rfl⟩

/-- C4 (amended): venue fields are read exclusively from `gameInfo.venue` —
the extraction is invariant under everything outside the `gameInfo` entry, a
missing or falsy `gameInfo.venue` leaves all four venue fields null, and a
present venue object populates them from its id/fullName/address fields. -/
theorem venue_from_gameinfo_only :
    (∀ gd gd' : PyDict, objGetD gd "gameInfo" (.obj []) = objGetD gd' "gameInfo" (.obj []) →
      venueCompute gd = venueCompute gd') ∧
    (∀ (gd : PyDict) (fname : Option String) (d : PyDict),
      detailsOf gd fname = .ok d → venueCompute gd = .ok none →
      pyLookup d "venue_id" = some .null ∧ pyLookup d "venue_name" = some .null ∧
      pyLookup d "venue_city" = some .null ∧ pyLookup d "venue_state" = some .null) ∧
    (∀ (gd : PyDict) (fname : Option String) (d : PyDict) (vid vname city vstate : PyVal),
      detailsOf gd fname = .ok d →
      venueCompute gd = .ok (some (vid, vname, city, vstate)) →
      pyLookup d "venue_id" = some vid ∧ pyLookup d "venue_name" = some vname ∧
      pyLookup d "venue_city" = some city ∧ pyLookup d "venue_state" = some vstate) := by
  refine ⟨?_, ?_, ?_⟩
  · intro gd gd' hgi
    unfold venueCompute
    rw [hgi]
  · intro gd fname d hd hvc
    exact (detailsOf_venue_fields hd).1 hvc
  · intro gd fname d vid vname city vstate hd hvc
    exact (detailsOf_venue_fields hd).2 vid vname city vstate hvc

theorem venue_from_gameinfo_only_witness :
    venueCompute [("gameInfo", PyVal.obj [("venue", PyVal.obj [("fullName", PyVal.s "X Arena")])]),
        ("attendance", PyVal.i 5)] =
      venueCompute [("gameInfo", PyVal.obj [("venue", PyVal.obj [("fullName", PyVal.s "X Arena")])])] :=
  venue_from_gameinfo_only.1 _ _ rfl

/-! ### Idempotence of the Field Extractor (the back-fill mutates only the
`plays` entry of the raw document, which the details extraction never reads). -/

theorem gameIdStep_congr {gd gd' : PyDict} (fname : Option String)
    (h : ∀ k, k ≠ "plays" → pyLookup gd' k = pyLookup gd k) :
    gameIdStep gd' fname = gameIdStep gd fname := by
  unfold gameIdStep
  rw [h "gameId" (by decide), h "header" (by decide)]

theorem seasonCompute_congr {gd gd' : PyDict}
    (h : ∀ k, k ≠ "plays" → pyLookup gd' k = pyLookup gd k) :
    seasonCompute gd' = seasonCompute gd := by
  unfold seasonCompute
  simp only [objGetD]
  rw [h "season" (by decide), h "header" (by decide)]

theorem boxscoreCompute_congr {gd gd' : PyDict}
    (h : ∀ k, k ≠ "plays" → pyLookup gd' k = pyLookup gd k) :
    boxscoreCompute gd' = boxscoreCompute gd := by
  unfold boxscoreCompute
  simp only [objGetD]
  rw [h "header" (by decide)]

theorem dateStep_congr {gd gd' : PyDict}
    (h : ∀ k, k ≠ "plays" → pyLookup gd' k = pyLookup gd k) :
    dateStep gd' = dateStep gd := by
  funext dt
  unfold dateStep
  rw [h "date" (by decide)]

theorem venueCompute_congr {gd gd' : PyDict}
    (h : ∀ k, k ≠ "plays" → pyLookup gd' k = pyLookup gd k) :
    venueCompute gd' = venueCompute gd := by
  unfold venueCompute
  simp only [objGetD]
  rw [h "gameInfo" (by decide)]

theorem attendanceCompute_congr {gd gd' : PyDict}
    (h : ∀ k, k ≠ "plays" → pyLookup gd' k = pyLookup gd k) :
    attendanceCompute gd' = attendanceCompute gd := by
  unfold attendanceCompute
  rw [h "gameInfo" (by decide), h "attendance" (by decide), h "boxscore" (by decide),
    h "header" (by decide)]

theorem statusCompute_congr {gd gd' : PyDict}
    (h : ∀ k, k ≠ "plays" → pyLookup gd' k = pyLookup gd k) :
    statusCompute gd' = statusCompute gd := by
  unfold statusCompute statusTypeOf statusTopLevel
  rw [h "header" (by decide), h "status" (by decide)]

theorem neutralCompute_congr {gd gd' : PyDict}
    (h : ∀ k, k ≠ "plays" → pyLookup gd' k = pyLookup gd k) :
    neutralCompute gd' = neutralCompute gd := by
  unfold neutralCompute
  rw [h "header" (by decide)]

theorem formatCompute_congr {gd gd' : PyDict}
    (h : ∀ k, k ≠ "plays" → pyLookup gd' k = pyLookup gd k) :
    formatCompute gd' = formatCompute gd := by
  unfold formatCompute
  rw [h "format" (by decide), h "header" (by decide)]

theorem getBroadcasts_congr {gd gd' : PyDict}
    (h : ∀ k, k ≠ "plays" → pyLookup gd' k = pyLookup gd k) :
    getBroadcasts gd' = getBroadcasts gd := by
  unfold getBroadcasts
  simp only [objGetD]
  rw [h "broadcasts" (by decide), h "header" (by decide), h "gameInfo" (by decide)]

theorem broadcastCompute_congr {gd gd' : PyDict}
    (h : ∀ k, k ≠ "plays" → pyLookup gd' k = pyLookup gd k) :
    broadcastCompute gd' = broadcastCompute gd := by
  unfold broadcastCompute getPrimaryBroadcast
  rw [getBroadcasts_congr h]

theorem teamsCompute_congr {gd gd' : PyDict}
    (h : ∀ k, k ≠ "plays" → pyLookup gd' k = pyLookup gd k) :
    teamsCompute gd' = teamsCompute gd := by
  unfold teamsCompute
  rw [h "header" (by decide)]

theorem detailsOf_congr {gd gd' : PyDict} (fname : Option String)
    (h : ∀ k, k ≠ "plays" → pyLookup gd' k = pyLookup gd k) :
    detailsOf gd' fname = detailsOf gd fname := by
  unfold detailsOf seasonStep boxscoreStep venueStep attendanceStep statusStep
    neutralStep formatStep broadcastStep teamsStep
  rw [gameIdStep_congr fname h, seasonCompute_congr h, boxscoreCompute_congr h,
    dateStep_congr h, venueCompute_congr h, attendanceCompute_congr h,
    statusCompute_congr h, neutralCompute_congr h, formatCompute_congr h,
    broadcastCompute_congr h, teamsCompute_congr h]

/-- The back-fill either leaves the document untouched or rewrites exactly its
`plays` entry. -/
theorem backfillPlays_shape {gd dt g : PyDict} (h : backfillPlays gd dt = .ok g) :
    g = gd ∨ ∃ v, g = pySet gd "plays" v := by
  unfold backfillPlays at h
  rcases hp : pyLookup gd "plays" with _ | v
  · rw [hp] at h
    simp only [Pure.pure] at h
    injection h with h
    exact Or.inl h.symm
  · rw [hp] at h
    cases v with
    | arr plays =>
      obtain ⟨plays2, _, hpure⟩ := except_bind_ok h
      simp only [Pure.pure] at hpure
      injection hpure with hpure
      exact Or.inr ⟨.arr plays2, hpure.symm⟩
    | null => simp only [Pure.pure] at h; injection h with h; exact Or.inl h.symm
    | b bv => simp only [Pure.pure] at h; injection h with h; exact Or.inl h.symm
    | s sv => simp only [Pure.pure] at h; injection h with h; exact Or.inl h.symm
    | i iv => simp only [Pure.pure] at h; injection h with h; exact Or.inl h.symm
    | f fv => simp only [Pure.pure] at h; injection h with h; exact Or.inl h.symm
    | nan => simp only [Pure.pure] at h; injection h with h; exact Or.inl h.symm
    | obj ov => simp only [Pure.pure] at h; injection h with h; exact Or.inl h.symm

/-- C8: running `get_game_details` twice over the same document yields the
same extracted details both times — the in-place play-by-play back-fill only
touches the `plays` entry, which the extraction never reads. -/
theorem extractor_idempotent (gd : PyDict) (fname : Option String)
    (d1 g1 d2 g2 : PyDict)
    (h1 : getGameDetailsRun gd fname = .ok (d1, g1))
    (h2 : getGameDetailsRun g1 fname = .ok (d2, g2)) :
    d2 = d1 := by
  unfold getGameDetailsRun at h1 h2
  obtain ⟨dA, hdA, h1'⟩ := except_bind_ok h1
  obtain ⟨gA, hgA, h1''⟩ := except_bind_ok h1'
  obtain ⟨dB, hdB, h2'⟩ := except_bind_ok h2
  obtain ⟨gB, hgB, h2''⟩ := except_bind_ok h2'
  simp only [Pure.pure] at h1'' h2''
  injection h1'' with h1''
  injection h2'' with h2''
  injection h1'' with hd1 hg1
  injection h2'' with hd2 hg2
  subst hd1
  subst hg1
  subst hd2
  have hsame : detailsOf gA fname = detailsOf gd fname := by
    rcases backfillPlays_shape hgA with hg | ⟨v, hg⟩
    · rw [hg]
    · rw [hg]
      exact detailsOf_congr fname
        (fun k hk => pyLookup_pySet_ne gd "plays" k v (fun he => hk he.symm))
  rw [hsame, hdA] at hdB
  injection hdB with hdB
  exact hdB.symm

/-- The details extracted from the empty document. -/
def emptyDocDetails : PyDict :=
  [("game_id", .s "unknown"), ("date", .null), ("venue_id", .null), ("venue_name", .null),
   ("venue_city", .null), ("venue_state", .null), ("attendance", .null), ("status", .null),
   ("neutral_site", .null), ("format", .null), ("completed", .b false), ("broadcast", .null),
   ("broadcast_market", .null), ("broadcast_type", .null), ("conference", .null),
   ("teams", .arr []), ("boxscore_source", .null), ("boxscore_available", .null),
   ("play_by_play_source", .null), ("is_conference_game", .null), ("conference_id", .null),
   ("conference_name", .null), ("conference_abbreviation", .null)]

theorem extractor_idempotent_witness : emptyDocDetails = emptyDocDetails :=
  extractor_idempotent [] none emptyDocDetails [] emptyDocDetails [] rfl rfl

/-! ### Best-broadcast selection conformance -/

def isOkEx {α : Type} : Except Unit α → Bool
  | .ok _ => true
  | .error _ => false

/-- Case-insensitive "television type" test (spec side). -/
def isTvB (bc : PyVal) : Bool :=
  match bcTypeName bc with
  | .ok t => t == "tv"
  | .error _ => false

/-- Case-insensitive "national market" test (spec side). -/
def isNatlB (bc : PyVal) : Bool :=
  match bcMarketType bc with
  | .ok m => m == "national"
  | .error _ => false

/-- The specification's selection rule, transcribed from its words: a
television-type national-market entry, else any television-type entry, else
any national-market entry, else the first entry. -/
def specBestBroadcast (l : List PyVal) : Option PyVal :=
  ((l.find? fun bc => isTvB bc && isNatlB bc) <|> l.find? isTvB) <|>
    (l.find? isNatlB <|> l.head?)

theorem pTvNational_ok {bc : PyVal}
    (hok : (isOkEx (bcTypeName bc) && isOkEx (bcMarketType bc)) = true) :
    pTvNational bc = .ok (isTvB bc && isNatlB bc) := by
  rcases ht : bcTypeName bc with u | t
  · rw [ht] at hok; simp [isOkEx] at hok
  · rcases hm : bcMarketType bc with u | m
    · rw [ht, hm] at hok; simp [isOkEx] at hok
    · unfold pTvNational
      rw [hm, ht]
      simp [Bind.bind, Except.bind, Pure.pure, Except.pure, isTvB, isNatlB, ht, hm]

theorem pTv_ok {bc : PyVal}
    (hok : (isOkEx (bcTypeName bc) && isOkEx (bcMarketType bc)) = true) :
    pTv bc = .ok (isTvB bc) := by
  rcases ht : bcTypeName bc with u | t
  · rw [ht] at hok; simp [isOkEx] at hok
  · unfold pTv
    rw [ht]
    simp [Bind.bind, Except.bind, Pure.pure, Except.pure, isTvB, ht]

theorem pNational_ok {bc : PyVal}
    (hok : (isOkEx (bcTypeName bc) && isOkEx (bcMarketType bc)) = true) :
    pNational bc = .ok (isNatlB bc) := by
  rcases hm : bcMarketType bc with u | m
  · rw [hm] at hok; simp [isOkEx] at hok
  · unfold pNational
    rw [hm]
    simp [Bind.bind, Except.bind, Pure.pure, Except.pure, isNatlB, hm]

theorem firstMatch_ok (p : PyVal → Except Unit Bool) (pb : PyVal → Bool) :
    ∀ l : List PyVal, (∀ bc ∈ l, p bc = .ok (pb bc)) →
      firstMatch p l = .ok (l.find? pb) := by
  intro l
  induction l with
  | nil => intro _; rfl
  | cons bc rest ih =>
    intro h
    have hbc := h bc (List.mem_cons_self ..)
    have hrest := ih (fun x hx => h x (List.mem_cons_of_mem _ hx))
    unfold firstMatch
    rw [hbc]
    by_cases hpb : pb bc = true
    · simp [Bind.bind, Except.bind, hpb, Pure.pure, Except.pure, List.find?, hrest]
    · simp only [Bool.not_eq_true] at hpb
      simp [Bind.bind, Except.bind, hpb, Pure.pure, Except.pure, List.find?, hrest]

/-- Scenario E entries and document. -/
def bcTvNationalEntry : PyVal :=
  .obj [("type", .obj [("shortName", .s "TV")]), ("market", .obj [("type", .s "National")]),
        ("media", .obj [("shortName", .s "ESPN")])]

def bcRadioLocalEntry : PyVal :=
  .obj [("type", .obj [("shortName", .s "Radio")]), ("market", .obj [("type", .s "Local")])]

def docScenarioE : PyDict :=
  [("broadcasts", .arr [bcRadioLocalEntry, bcTvNationalEntry])]

/-- C5: the primary broadcast is selected in the order television+national,
any television, any national, first entry (case-insensitively); a falsy
broadcast collection leaves all three broadcast fields of the record null;
the TV/National entry beats a Radio/Local entry listed before it. -/
theorem best_broadcast_selection :
    (∀ (gd : PyDict) (l : List PyVal), getBroadcasts gd = .ok (.arr l) →
      (∀ bc ∈ l, (isOkEx (bcTypeName bc) && isOkEx (bcMarketType bc)) = true) →
      getPrimaryBroadcast gd = .ok (specBestBroadcast l)) ∧
    (∀ (gd : PyDict) (fname : Option String) (d : PyDict) (bj : PyVal),
      detailsOf gd fname = .ok d → getBroadcasts gd = .ok bj → truthy bj = false →
      pyLookup d "broadcast" = some .null ∧ pyLookup d "broadcast_market" = some .null ∧
      pyLookup d "broadcast_type" = some .null) ∧
    (getPrimaryBroadcast docScenarioE = .ok (some bcTvNationalEntry)) := by
  refine ⟨?_, ?_, ?_⟩
  · intro gd l hB hw
    have h1 := firstMatch_ok pTvNational (fun bc => isTvB bc && isNatlB bc) l
      (fun bc hm => pTvNational_ok (hw bc hm))
    have h2 := firstMatch_ok pTv isTvB l (fun bc hm => pTv_ok (hw bc hm))
    have h3 := firstMatch_ok pNational isNatlB l (fun bc hm => pNational_ok (hw bc hm))
    unfold getPrimaryBroadcast
    rw [hB]
    cases l with
    | nil => simp [Bind.bind, Except.bind, truthy, Pure.pure, Except.pure, specBestBroadcast]
    | cons b bs =>
      simp only [Bind.bind, Except.bind, truthy, List.isEmpty_cons, Bool.not_false,
        if_true, h1, h2, h3, specBestBroadcast]
      rcases hf1 : List.find? (fun bc => isTvB bc && isNatlB bc) (b :: bs) with _ | bc1 <;>
        rcases hf2 : List.find? isTvB (b :: bs) with _ | bc2 <;>
          rcases hf3 : List.find? isNatlB (b :: bs) with _ | bc3 <;>
            simp [hf1, hf2, hf3, Pure.pure, Except.pure, Option.orElse]
  · intro gd fname d bj hd hB hfalsy
    have hbc : broadcastCompute gd = .ok none := by
      unfold broadcastCompute getPrimaryBroadcast
      rw [hB]
      simp [Bind.bind, Except.bind, hfalsy, Pure.pure, Except.pure]
    exact (detailsOf_broadcast_fields hd).1 hbc
  · rfl

theorem best_broadcast_selection_witness :
    getPrimaryBroadcast docScenarioE =
      .ok (specBestBroadcast [bcRadioLocalEntry, bcTvNationalEntry]) :=
  best_broadcast_selection.1 docScenarioE [bcRadioLocalEntry, bcTvNationalEntry]
    rfl (by decide)

/-! ### Record Builder entry (`process_game_data`, processor.py 363-1008):
dispatch on the raw document.  The per-event extraction work is represented by
`getGameDetailsRun`; exception messages are abstracted to one string, only
their presence matters.  The function is total: no exception escapes. -/

structure GameResult where
  processed : Bool
  error : Option String
  /-- `none`: the returned dict has no "data" key (failure shape);
  `some b`: it has one, with `b` = all seven collections empty. -/
  data : Option Bool
deriving DecidableEq

def isObjV : PyVal → Bool
  | .obj _ => true
  | _ => false

/-- `process_game_data` on an already-loaded raw value (`none` = the document
was missing / the fetch returned None). -/
def processGameData (raw : Option PyVal) (fname : Option String) : GameResult :=
  match raw with
  | none => ⟨false, some "Raw data is None", none⟩
  | some gd =>
    match gd with
    | .obj l =>
      match getGameDetailsRun l fname with
      | .ok _ => ⟨true, none, some false⟩
      | .error _ => ⟨false, some "exception during processing", none⟩
    | _ => ⟨true, none, some true⟩

/-- C6 counterexample: a present but non-mapping raw document (a JSON array)
is not reported as a failure — the result has processed = true and a null
error, with all seven collections empty. -/
theorem nonmapping_document_cex :
    processGameData (some (.arr [])) none = ⟨true, none, some true⟩ ∧
    (processGameData (some (.arr [])) none).processed = true ∧
    (processGameData (some (.arr [])) none).error = none :=
  ⟨rfl, rfl, rfl⟩

/-- C6 (amended): a missing document (None) yields processed = false with a
non-null error string and no exception escapes; a present non-mapping
document yields processed = true with a null error and all seven collections
empty (extraction is silently skipped), likewise without an exception. -/
theorem missing_or_nonmapping_document :
    (∀ fname, processGameData none fname = ⟨false, some "Raw data is None", none⟩) ∧
    (∀ (gd : PyVal) (fname : Option String), isObjV gd = false →
      processGameData (some gd) fname = ⟨true, none, some true⟩) := by
  constructor
  · intro fname; rfl
  · intro gd fname hobj
    cases gd with
    | obj l => simp [isObjV] at hobj
    | null => rfl
    | b v => rfl
    | s v => rfl
    | i v => rfl
    | f v => rfl
    | nan => rfl
    | arr l => rfl

theorem missing_or_nonmapping_document_witness :
    processGameData (some (PyVal.s "not a mapping")) none = ⟨true, none, some true⟩ :=
  missing_or_nonmapping_document.2 (PyVal.s "not a mapping") none (by decide)

/-! ### Season Aggregator: game summary and schedule reconciliation
(processor.py 1414-1445, 1566-1606) -/

/-- The result shape `process_game_result` inspects. -/
structure GameProcResult where
  game_id : String
  processed : Bool
  error : Option String
  hasData : Bool

structure SummaryRow where
  game_id : String
  season : Int
  processed : Bool
  error : Option String

/-- `process_game_result` (processor.py 1414-1442): success rows get a null
error; failures get the result's error string or "Unknown error". -/
def processGameResultRow (season : Int) (r : GameProcResult) : SummaryRow :=
  if r.processed && r.hasData then ⟨r.game_id, season, true, none⟩
  else ⟨r.game_id, season, false, some (r.error.getD "Unknown error")⟩

/-- The inner reconciliation block (processor.py 1576-1602): scheduled ids
absent from the summary are appended as synthetic failure rows. -/
def reconcileSummary (schedule : List String) (season : Int)
    (rows : List SummaryRow) : List SummaryRow :=
  let present := rows.map (fun r => r.game_id)
  rows ++ ((schedule.filter (fun gid => !present.contains gid)).dedup.map
    (fun gid => ⟨gid, season, false, some "Game failed to process completely"⟩))

/-- The season run's game-summary table as saved by process_all_games
(processor.py 1393-1395, 1476-1523, 1566-1606): an absent raw games
directory returns an empty summary at once; otherwise per-event rows are
built, and the reconciliation block runs only inside the save loop's
non-empty guard (1567) and only when the schedules file exists and is
non-empty (1574-1576) — an empty summary table is left as is, with no
synthetic rows appended. -/
def seasonGameSummary (rawDirExists schedulesFileExists : Bool)
    (schedule : List String) (season : Int)
    (results : List GameProcResult) : List SummaryRow :=
  if rawDirExists then
    let rows := results.map (processGameResultRow season)
    if rows.isEmpty then rows
    else if schedulesFileExists && !schedule.isEmpty then
      reconcileSummary schedule season rows
    else rows
  else []

theorem reconcile_covers_schedule (schedule : List String) (season : Int)
    (results : List GameProcResult) :
    ∀ gid ∈ schedule,
      ∃ row ∈ reconcileSummary schedule season (results.map (processGameResultRow season)),
        row.game_id = gid ∧ (row.processed = true ∨ row.error.isSome = true) := by
  intro gid hgid
  set rows := results.map (processGameResultRow season) with hrows
  by_cases hp : gid ∈ rows.map (fun r => r.game_id)
  · obtain ⟨row, hrow, hid⟩ := List.mem_map.mp hp
    refine ⟨row, List.mem_append_left _ hrow, hid, ?_⟩
    obtain ⟨r, _, hr⟩ := List.mem_map.mp hrow
    rw [← hr]
    unfold processGameResultRow
    split_ifs with hcond
    · exact Or.inl rfl
    · exact Or.inr rfl
  · have hpresent : (rows.map (fun r => r.game_id)).contains gid = false := by
      rw [List.contains_eq_any_beq]
      by_contra hcon
      simp only [Bool.not_eq_false, List.any_eq_true] at hcon
      obtain ⟨x, hx, hbeq⟩ := hcon
      exact hp (by rw [show gid = x from by simpa using hbeq]; exact hx)
    refine ⟨⟨gid, season, false, some "Game failed to process completely"⟩, ?_, rfl, Or.inr rfl⟩
    refine List.mem_append_right _ ?_
    refine List.mem_map.mpr ⟨gid, ?_, rfl⟩
    refine List.mem_dedup.mpr ?_
    refine List.mem_filter.mpr ⟨hgid, ?_⟩
    rw [hpresent]
    rfl

theorem seasonGameSummary_run (schedule : List String) (season : Int)
    (results : List GameProcResult) (hres : results ≠ [])
    (hsched : schedule ≠ []) :
    seasonGameSummary true true schedule season results =
      reconcileSummary schedule season (results.map (processGameResultRow season)) := by
  have hrows : (results.map (processGameResultRow season)).isEmpty = false := by
    cases results with
    | nil => exact absurd rfl hres
    | cons a as => rfl
  have hns : schedule.isEmpty = false := by
    cases schedule with
    | nil => exact absurd rfl hsched
    | cons a as => rfl
  unfold seasonGameSummary
  simp [hrows, hns]

/-- C7 counterexample: with a non-empty schedule but zero per-event result
rows — the raw games directory is absent, or present but holding no game
files — the season's game summary stays empty: reconciliation runs only on a
non-empty summary table, so the scheduled id "401" gets no row at all and is
silently dropped. -/
theorem reconciliation_skipped_empty_summary_cex :
    seasonGameSummary false true ["401"] 2023 [] = [] ∧
    seasonGameSummary true true ["401"] 2023 [] = [] ∧
    ¬ ∃ row ∈ seasonGameSummary true true ["401"] 2023 [], row.game_id = "401" := by
  refine ⟨rfl, rfl, ?_⟩
  rintro ⟨row, hrow, -⟩
  rw [show seasonGameSummary true true ["401"] 2023 [] = ([] : List SummaryRow) from rfl]
    at hrow
  exact List.not_mem_nil row hrow

/-- C7 (amended): when the raw games directory exists, the schedules file is
present, the schedule is non-empty and at least one per-event result row was
produced, every scheduled event id appears in the season's game summary with
processed = true or a non-null error string — missing ids are appended as
synthetic failure rows. With zero per-event rows the reconciliation is
skipped and the summary stays empty, silently dropping every scheduled
id. -/
theorem schedule_reconciliation_guarded (schedule : List String) (season : Int)
    (results : List GameProcResult) (hres : results ≠ [])
    (hsched : schedule ≠ []) :
    ∀ gid ∈ schedule,
      ∃ row ∈ seasonGameSummary true true schedule season results,
        row.game_id = gid ∧ (row.processed = true ∨ row.error.isSome = true) := by
  intro gid hgid
  rw [seasonGameSummary_run schedule season results hres hsched]
  exact reconcile_covers_schedule schedule season results gid hgid

theorem schedule_reconciliation_guarded_witness :
    ∃ row ∈ seasonGameSummary true true ["401", "402"] 2023
      [⟨"401", true, none, true⟩],
      row.game_id = "402" ∧ (row.processed = true ∨ row.error.isSome = true) :=
  schedule_reconciliation_guarded ["401", "402"] 2023 [⟨"401", true, none, true⟩]
    (List.cons_ne_nil _ _) (List.cons_ne_nil _ _) "402" (by decide)

/-! ### game_info record and period-structure fields (processor.py 418-447,
1196-1215) -/

/-- The status normalization inside the game_info literal (processor.py
426-430). -/
def statusFieldOf (v : PyVal) : PyVal :=
  match v with
  | .s sv => .s sv
  | .obj l =>
    pyOr (objGetD l "description" .null)
      (pyOr (objGetD l "short_detail" .null) (objGetD l "name" .null))
  | _ => .null

/-- The game_info dict (processor.py 418-447); plain detail keys are always
present in the details dict, the period fields are read with
`game_details.get(key, default)`. -/
def gameInfoOf (gid : PyVal) (dt : PyDict) : PyDict :=
  [("game_id", gid),
   ("date", objGetD dt "date" .null),
   ("venue_id", objGetD dt "venue_id" .null),
   ("venue_name", objGetD dt "venue_name" .null),
   ("venue_city", objGetD dt "venue_city" .null),
   ("venue_state", objGetD dt "venue_state" .null),
   ("attendance", objGetD dt "attendance" .null),
   ("status", statusFieldOf (objGetD dt "status" .null)),
   ("neutral_site", objGetD dt "neutral_site" .null),
   ("completed", objGetD dt "completed" .null),
   ("broadcast", objGetD dt "broadcast" .null),
   ("broadcast_market", objGetD dt "broadcast_market" .null),
   ("broadcast_type", objGetD dt "broadcast_type" .null),
   ("regulation_clock", objGetD dt "regulation_clock" (.f 600)),
   ("overtime_clock", objGetD dt "overtime_clock" (.f 300)),
   ("period_name", objGetD dt "period_name" (.s "Quarter")),
   ("num_periods", objGetD dt "num_periods" (.i 4)),
   ("boxscore_source", objGetD dt "boxscore_source" .null),
   ("boxscore_available", objGetD dt "boxscore_available" .null),
   ("play_by_play_source", objGetD dt "play_by_play_source" .null),
   ("is_conference_game", objGetD dt "is_conference_game" .null),
   ("conference_id", objGetD dt "conference_id" .null),
   ("conference_name", objGetD dt "conference_name" .null),
   ("conference_abbreviation", objGetD dt "conference_abbreviation" .null)]

/-- `x.get(k1, {}).get(k2) if isinstance(x, dict) else None` as used in the
format-extraction lambdas (processor.py 1201-1211). -/
def fmtGet (x : PyVal) (k1 k2 : String) : Except Unit PyVal :=
  match x with
  | .obj l =>
    match objGetD l k1 (.obj []) with
    | .obj l2 => .ok (objGetD l2 k2 .null)
    | _ => .error ()
  | _ => .ok .null

/-- The optimizer's format-component extraction (processor.py 1196-1215),
specialized to one row: it fires only when a `format` column exists; a raised
lambda aborts the remaining assignments (the outer except keeps what was
already assigned). -/
def optimizerFormatRow (row : PyDict) : PyDict :=
  match pyLookup row "format" with
  | none => row
  | some fv =>
    match fmtGet fv "regulation" "clock" with
    | .error _ => row
    | .ok rc =>
      let r1 := pySet row "regulation_clock" rc
      match fmtGet fv "overtime" "clock" with
      | .error _ => r1
      | .ok oc =>
        let r2 := pySet r1 "overtime_clock" oc
        match fmtGet fv "regulation" "displayName" with
        | .error _ => r2
        | .ok pn =>
          let r3 := pySet r2 "period_name" pn
          match fmtGet fv "regulation" "periods" with
          | .error _ => r3
          | .ok np => pySet r3 "num_periods" np

/-- A raw document that does supply period-format information. -/
def docWithFormat : PyDict :=
  [("format", .obj [("regulation", .obj [("clock", .i 720), ("periods", .i 2),
      ("displayName", .s "Half")]), ("overtime", .obj [("clock", .i 400)])])]

/-- C9 counterexample: the document supplies a full period format (720-second
halves) and the extractor stores it under the details key "format", yet the
produced game_info record still carries the defaults (600/300/Quarter/4) —
the supplied values are never propagated. -/
theorem period_format_not_propagated_cex :
    formatCompute docWithFormat =
      .ok (some (.obj [("regulation", .obj [("clock", .i 720), ("periods", .i 2),
        ("displayName", .s "Half")]), ("overtime", .obj [("clock", .i 400)])])) ∧
    (detailsOf docWithFormat none).map
      (fun d => pyLookup (gameInfoOf (.s "g") d) "regulation_clock") = .ok (some (.f 600)) ∧
    (detailsOf docWithFormat none).map
      (fun d => pyLookup (gameInfoOf (.s "g") d) "overtime_clock") = .ok (some (.f 300)) ∧
    (detailsOf docWithFormat none).map
      (fun d => pyLookup (gameInfoOf (.s "g") d) "period_name") = .ok (some (.s "Quarter")) ∧
    (detailsOf docWithFormat none).map
      (fun d => pyLookup (gameInfoOf (.s "g") d) "num_periods") = .ok (some (.i 4)) :=
  ⟨rfl, rfl, rfl, rfl, rfl⟩

/-- C9 (amended): the period-structure fields of the game_info record always
take the documented defaults — 4 periods named "Quarter", a 600-second
regulation clock and a 300-second overtime clock — regardless of the raw
document, because the extractor never writes the keys the record builder
reads; and the optimizer's format pass leaves the record unchanged because
game_info has no "format" column. -/
theorem period_fields_always_default (gd : PyDict) (fname : Option String)
    (d : PyDict) (gid : PyVal) (hd : detailsOf gd fname = .ok d) :
    pyLookup (gameInfoOf gid d) "regulation_clock" = some (.f 600) ∧
    pyLookup (gameInfoOf gid d) "overtime_clock" = some (.f 300) ∧
    pyLookup (gameInfoOf gid d) "period_name" = some (.s "Quarter") ∧
    pyLookup (gameInfoOf gid d) "num_periods" = some (.i 4) ∧
    optimizerFormatRow (gameInfoOf gid d) = gameInfoOf gid d := by
  have h1 : pyLookup d "regulation_clock" = none := by
    rw [detailsOf_lookup_unwritten hd "regulation_clock" (by decide) (by decide)]
    rfl
  have h2 : pyLookup d "overtime_clock" = none := by
    rw [detailsOf_lookup_unwritten hd "overtime_clock" (by decide) (by decide)]
    rfl
  have h3 : pyLookup d "period_name" = none := by
    rw [detailsOf_lookup_unwritten hd "period_name" (by decide) (by decide)]
    rfl
  have h4 : pyLookup d "num_periods" = none := by
    rw [detailsOf_lookup_unwritten hd "num_periods" (by decide) (by decide)]
    rfl
  have hfmt : pyLookup (gameInfoOf gid d) "format" = none := rfl
  refine ⟨?_, ?_, ?_, ?_, ?_⟩
  · show some (objGetD d "regulation_clock" (.f 600)) = _
    rw [objGetD, h1]
    rfl
  · show some (objGetD d "overtime_clock" (.f 300)) = _
    rw [objGetD, h2]
    rfl
  · show some (objGetD d "period_name" (.s "Quarter")) = _
    rw [objGetD, h3]
    rfl
  · show some (objGetD d "num_periods" (.i 4)) = _
    rw [objGetD, h4]
    rfl
  · unfold optimizerFormatRow
    rw [hfmt]

theorem period_fields_always_default_witness :
    pyLookup (gameInfoOf (PyVal.s "u") emptyDocDetails) "regulation_clock" =
      some (PyVal.f 600) :=
  (period_fields_always_default [] none emptyDocDetails (PyVal.s "u") rfl).1

/-! ### DataFrame model for optimize_dataframe_dtypes (processor.py 1039-1292) -/

/-- The pandas dtypes the optimizer produces. -/
inductive Dtype
  | object
  | category
  | int64N
  | float64
  | boolDt
  | datetime
deriving DecidableEq

/-- One column of a dataframe: its name, dtype and cell values. -/
structure Col where
  name : String
  dtype : Dtype
  values : List PyVal

/-- `pd.isna`-style nullness: None and NaN. -/
def isNullLike (v : PyVal) : Bool :=
  match v with
  | .null => true
  | .nan => true
  | _ => false

/-- `pd.to_numeric(errors='coerce')` on one cell (library behaviour, modeled
for unsigned integer and decimal numerals; anything unparseable coerces to
NaN). -/
def pyToNumeric (v : PyVal) : PyVal :=
  match v with
  | .i n => .i n
  | .f q => .f q
  | .b b => .i (if b then 1 else 0)
  | .s s =>
    if isDigitStr s.data then .i (digitsVal s.data)
    else if isDigitStr (removeFirstDot s.data) ∧ '.' ∈ s.data then .f (parseDecQ s.data)
    else .nan
  | _ => .nan

/-- `.astype('Int64')` after coercion on one cell: non-integral floats raise
(the raise is caught per column, keeping the column unchanged). -/
def toInt64Val (v : PyVal) : Option PyVal :=
  match pyToNumeric v with
  | .i n => some (.i n)
  | .f q => if q.den = 1 then some (.i q.num) else none
  | _ => some .null

/-- Hashability of a cell for `nunique` (lists and dicts raise TypeError). -/
def isHashableScalar (v : PyVal) : Bool :=
  match v with
  | .arr _ => false
  | .obj _ => false
  | _ => true

/-- Python `==` on hashable scalars (numeric values compare across int/float
and bool, as in CPython). -/
def pyScalarEq (a b : PyVal) : Bool :=
  match a, b with
  | .null, .null => true
  | .b x, .b y => x == y
  | .s x, .s y => x == y
  | .i x, .i y => x == y
  | .f x, .f y => x == y
  | .i x, .f y => (x : ℚ) == y
  | .f x, .i y => x == (y : ℚ)
  | .b x, .i y => (if x then (1 : ℤ) else 0) == y
  | .i x, .b y => x == (if y then (1 : ℤ) else 0)
  | .b x, .f y => (if x then (1 : ℚ) else 0) == y
  | .f x, .b y => x == (if y then (1 : ℚ) else 0)
  | _, _ => false

/-- `Series.nunique()`: count of distinct non-null values. -/
def nuniqueVals (vals : List PyVal) : ℕ :=
  ((vals.filter (fun v => !isNullLike v)).foldl
    (fun acc v => if acc.any (fun w => pyScalarEq w v) then acc else acc ++ [v])
    []).length

/-- The common id columns (processor.py 1057-1067; every entry maps to True). -/
def idColumns : List String :=
  ["game_id", "venue_id", "team_id", "player_id", "player_1_id", "player_2_id",
   "position_id", "play_type_id", "sequence_number"]

/-- The id-column pass (processor.py 1165-1182): object id columns with at
least one non-null value become nullable Int64; a cast failure keeps the
column as is. -/
def idPass (cols : List Col) : List Col :=
  cols.map (fun c =>
    if c.name ∈ idColumns ∧ c.dtype = Dtype.object ∧
        c.values.any (fun v => !isNullLike v) = true then
      match c.values.mapM toInt64Val with
      | some vs => ⟨c.name, Dtype.int64N, vs⟩
      | none => c
    else c)

/-- The common categorical columns (processor.py 1070-1072). -/
def commonCategoricalCols : List String :=
  ["home_away", "type", "market", "lang", "region", "team_abbreviation",
   "position", "status", "play_type"]

/-- The common categorical pass (processor.py 1184-1193): object columns in
the list with fewer than 100 unique values become categorical; unhashable
cells make nunique raise, which is caught, keeping the column unchanged.
The cell values are untouched by the dtype change. -/
def commonCatPass (cols : List Col) : List Col :=
  cols.map (fun c =>
    if c.name ∈ commonCategoricalCols ∧ c.dtype = Dtype.object then
      if c.values.all isHashableScalar = true ∧ nuniqueVals c.values < 100 then
        ⟨c.name, Dtype.category, c.values⟩
      else c
    else c)

/-- Set or append a column of object dtype (a dataframe column assignment). -/
def setColDf (cols : List Col) (n : String) (vs : List PyVal) : List Col :=
  if cols.any (fun c => c.name == n) then
    cols.map (fun c => if c.name = n then ⟨n, Dtype.object, vs⟩ else c)
  else cols ++ [⟨n, Dtype.object, vs⟩]

/-- The game_info format pass (processor.py 1196-1215): four apply-lambdas
over the "format" column; a raising lambda aborts the remaining assignments
but the earlier ones stay committed. -/
def dfFormatPass (cols : List Col) : List Col :=
  match cols.find? (fun c => c.name == "format") with
  | none => cols
  | some fc =>
    if fc.dtype = Dtype.object then
      match fc.values.mapM (fun v => fmtGet v "regulation" "clock") with
      | .error _ => cols
      | .ok rcs =>
        let c1 := setColDf cols "regulation_clock" rcs
        match fc.values.mapM (fun v => fmtGet v "overtime" "clock") with
        | .error _ => c1
        | .ok ocs =>
          let c2 := setColDf c1 "overtime_clock" ocs
          match fc.values.mapM (fun v => fmtGet v "regulation" "displayName") with
          | .error _ => c2
          | .ok pns =>
            let c3 := setColDf c2 "period_name" pns
            match fc.values.mapM (fun v => fmtGet v "regulation" "periods") with
            | .error _ => c3
            | .ok nps => setColDf c3 "num_periods" nps
    else cols

/-- `pd.to_datetime(errors='coerce')` on one cell (library behaviour: empty
strings and nulls coerce to NaT; other values are kept abstract). -/
def pyToDatetime (v : PyVal) : PyVal :=
  match v with
  | .s s => if s = "" then .nan else .s s
  | .null => .nan
  | .nan => .nan
  | w => w

/-- The bool map of processor.py 1235-1246 followed by `.astype('bool')`
(an unmapped cell becomes NaN, and `bool(nan)` is True). -/
def pyMapBool (v : PyVal) : PyVal :=
  match v with
  | .b x => .b x
  | .s "True" => .b true
  | .s "true" => .b true
  | .s "1" => .b true
  | .s "False" => .b false
  | .s "false" => .b false
  | .s "0" => .b false
  | .i 1 => .b true
  | .i 0 => .b false
  | _ => .b true

/-- The dtype targets appearing in the datatype_conversions table
(processor.py 1075-1163); `skipC` is the explicit `False` entry. -/
inductive ConvTarget
  | int64C
  | dtC
  | catC
  | boolC
  | floatC
  | skipC

/-- The per-kind conversion table (processor.py 1075-1163). -/
def datatypeConversions (kind : String) : List (String × ConvTarget) :=
  if kind = "game_info" then
    [("attendance", .int64C), ("date", .dtC), ("neutral_site", .boolC),
     ("completed", .boolC)]
  else if kind = "game_summary" then
    [("error", .catC), ("processed", .boolC)]
  else if kind = "officials" then
    [("position", .catC), ("name", .catC), ("display_name", .catC)]
  else if kind = "play_by_play" then
    [("play_id", .skipC), ("clock_seconds", .int64C), ("score_home", .int64C),
     ("score_away", .int64C), ("score_value", .int64C), ("coordinate_x", .floatC),
     ("coordinate_y", .floatC), ("home_win_percentage", .floatC),
     ("away_win_percentage", .floatC), ("tie_percentage", .floatC),
     ("period_display", .catC), ("wallclock", .dtC)]
  else if kind = "player_stats" then
    [("jersey", .int64C), ("MIN", .floatC), ("OREB", .floatC), ("DREB", .floatC),
     ("REB", .floatC), ("AST", .floatC), ("STL", .floatC), ("BLK", .floatC),
     ("TO", .floatC), ("PF", .floatC), ("PTS", .floatC), ("FG", .skipC),
     ("3PT", .skipC), ("FT", .skipC), ("starter", .boolC), ("dnp", .boolC)]
  else if kind = "schedules" then
    [("season", .int64C), ("event_date", .dtC)]
  else if kind = "team_stats" then
    [("FG", .skipC), ("3PT", .skipC), ("FT", .skipC), ("PTS", .floatC),
     ("REB", .floatC), ("AST", .floatC), ("STL", .floatC), ("BLK", .floatC),
     ("TO", .floatC), ("TTO", .floatC), ("ToTO", .floatC), ("TECH", .floatC),
     ("PTS OFF TO", .floatC), ("FBPs", .floatC), ("PIP", .floatC), ("PF", .floatC),
     ("LL", .floatC), ("OREB", .floatC), ("DREB", .floatC)]
  else if kind = "teams" then
    [("conference_id", .int64C)]
  else if kind = "teams_info" then
    [("score", .int64C), ("winner", .boolC), ("team_color", .catC),
     ("team_location", .catC), ("team_nickname", .catC), ("groups_slug", .catC)]
  else []

/-- One kind-specific conversion (processor.py 1218-1257) applied to the
matching column; failures are caught per column, keeping it unchanged. -/
def applyConv (c : Col) (t : ConvTarget) : Col :=
  match t with
  | .skipC => c
  | .int64C =>
    match c.values.mapM toInt64Val with
    | some vs => ⟨c.name, Dtype.int64N, vs⟩
    | none => c
  | .dtC => ⟨c.name, Dtype.datetime, c.values.map pyToDatetime⟩
  | .catC =>
    if c.values.all isHashableScalar = true ∧ nuniqueVals c.values < 100 then
      ⟨c.name, Dtype.category, c.values⟩
    else c
  | .boolC =>
    if c.dtype = Dtype.boolDt then c
    else ⟨c.name, Dtype.boolDt, c.values.map pyMapBool⟩
  | .floatC => ⟨c.name, Dtype.float64, c.values.map pyToNumeric⟩

/-- The kind-specific conversion pass: fold the table over the dataframe. -/
def specificPass (kind : String) (cols : List Col) : List Col :=
  (datatypeConversions kind).foldl
    (fun cs e => cs.map (fun c => if c.name = e.1 then applyConv c e.2 else c))
    cols

/-- Empty-string replacement on one column (processor.py 1259-1264): in
object columns every empty string becomes NaN; other dtypes are untouched. -/
def replaceEmptyVal : PyVal → PyVal
  | .s s => if s = "" then .nan else .s s
  | v => v

/-- The per-column empty-string cleanup. -/
def emptyStrCol (c : Col)  : Col :=
  if c.dtype = Dtype.object then ⟨c.name, c.dtype, c.values.map replaceEmptyVal⟩
  else c

/-- The empty-string pass over all columns. -/
def emptyStrPass (cols : List Col) : List Col :=
  cols.map emptyStrCol

/-- NaN-out the masked rows of a column (the `df.loc[mask, col] = nan`
assignment). -/
def maskNaN (mask : List Bool) (vals : List PyVal) : List PyVal :=
  List.zipWith (fun b v => if b then PyVal.nan else v) mask vals

/-- The DNP masking stage of the player_stats pass (processor.py 1266-1281). -/
def dnpMaskStage (cols : List Col) : List Col :=
  match cols.find? (fun c => c.name == "dnp") with
  | none => cols
  | some dc =>
    if (dc.values.map pyEqTrue).any (fun b => b) then
      cols.map (fun c =>
        if c.name ∈ dnpStatColumns then
          ⟨c.name, c.dtype, maskNaN (dc.values.map pyEqTrue) c.values⟩
        else c)
    else cols

/-- The basic stat columns converted to numeric (processor.py 1284). -/
def basicStatCols : List String :=
  ["OREB", "DREB", "REB", "AST", "STL", "BLK", "TO", "PF", "PTS"]

/-- The numeric conversion stage of the player_stats pass (processor.py
1283-1292). -/
def basicNumericStage (cols : List Col) : List Col :=
  cols.map (fun c =>
    if c.name ∈ basicStatCols ∧ c.dtype = Dtype.object then
      ⟨c.name, Dtype.float64, c.values.map pyToNumeric⟩
    else c)

/-- The whole player_stats tail of the optimizer. -/
def playerStatsDnpPass (cols : List Col) : List Col :=
  basicNumericStage (dnpMaskStage cols)

/-- The format pass fires only for game_info (processor.py 1196). -/
def formatMaybe (kind : String) (cols : List Col) : List Col :=
  if kind = "game_info" then dfFormatPass cols else cols

/-- The DNP tail fires only for player_stats (processor.py 1267). -/
def dnpFinal (kind : String) (cols : List Col) : List Col :=
  if kind = "player_stats" then playerStatsDnpPass cols else cols

/-- optimize_dataframe_dtypes (processor.py 1039-1292) over the column model:
empty frames are returned unchanged; otherwise the id pass, the common
categorical pass, the game_info format pass, the kind-specific conversions,
the empty-string replacement and the player_stats DNP tail run in order. -/
def optimizeDfModel (kind : String) (cols : List Col) : List Col :=
  if cols.all (fun c => c.values.isEmpty) then cols
  else
    dnpFinal kind
      (emptyStrPass (specificPass kind (formatMaybe kind (commonCatPass (idPass cols)))))

/-- A column is clean when, if it has object dtype, it holds no empty
string. -/
def cleanCol (c : Col) : Prop :=
  c.dtype = Dtype.object → PyVal.s "" ∉ c.values

theorem replaceEmptyVal_ne_empty : ∀ v, replaceEmptyVal v ≠ PyVal.s ""
  | .s s => by
    by_cases hs : s = ""
    · simp only [replaceEmptyVal, if_pos hs]
      exact fun h => PyVal.noConfusion h
    · simp only [replaceEmptyVal, if_neg hs]
      intro h
      injection h with h2
      exact hs h2
  | .null => fun h => PyVal.noConfusion h
  | .b _ => fun h => PyVal.noConfusion h
  | .i _ => fun h => PyVal.noConfusion h
  | .f _ => fun h => PyVal.noConfusion h
  | .nan => fun h => PyVal.noConfusion h
  | .arr _ => fun h => PyVal.noConfusion h
  | .obj _ => fun h => PyVal.noConfusion h

theorem emptyStrCol_clean (c : Col) : cleanCol (emptyStrCol c) := by
  unfold cleanCol emptyStrCol
  by_cases h : c.dtype = Dtype.object
  · rw [if_pos h]
    intro _ hmem
    obtain ⟨v, _, hv⟩ := List.mem_map.mp hmem
    exact replaceEmptyVal_ne_empty v hv
  · rw [if_neg h]
    intro ho
    exact absurd ho h

theorem emptyStrPass_clean (cols : List Col) :
    ∀ c ∈ emptyStrPass cols, cleanCol c := by
  intro c hc
  obtain ⟨c0, _, rfl⟩ := List.mem_map.mp hc
  exact emptyStrCol_clean c0

theorem mem_maskNaN : ∀ (mask : List Bool) (vals : List PyVal) (x : PyVal),
    x ∈ maskNaN mask vals → x = PyVal.nan ∨ x ∈ vals := by
  intro mask
  induction mask with
  | nil =>
    intro vals x h
    simp [maskNaN] at h
  | cons b ms ih =>
    intro vals x h
    cases vals with
    | nil => simp [maskNaN] at h
    | cons v vs =>
      simp only [maskNaN, List.zipWith_cons_cons] at h
      rcases List.mem_cons.mp h with h1 | h2
      · cases b with
        | true =>
          simp only [if_pos] at h1
          left
          exact h1
        | false =>
          simp only [Bool.false_eq_true, if_neg, if_false] at h1
          right
          rw [h1]
          exact List.mem_cons_self v vs
      · rcases ih vs x (by simp only [maskNaN]; exact h2) with h3 | h3
        · left
          exact h3
        · right
          exact List.mem_cons_of_mem v h3

theorem dnpMaskStage_clean (cols : List Col) (h : ∀ c ∈ cols, cleanCol c) :
    ∀ c ∈ dnpMaskStage cols, cleanCol c := by
  intro c hc
  unfold dnpMaskStage at hc
  split at hc
  · exact h c hc
  · next dc _ =>
    split at hc
    · obtain ⟨c0, hc0, rfl⟩ := List.mem_map.mp hc
      by_cases hn : c0.name ∈ dnpStatColumns
      · rw [if_pos hn]
        intro ho hmem
        rcases mem_maskNaN _ _ _ hmem with h1 | h1
        · exact PyVal.noConfusion h1
        · exact h c0 hc0 ho h1
      · rw [if_neg hn]
        exact h c0 hc0
    · exact h c hc

theorem basicNumericStage_clean (cols : List Col) (h : ∀ c ∈ cols, cleanCol c) :
    ∀ c ∈ basicNumericStage cols, cleanCol c := by
  intro c hc
  obtain ⟨c0, hc0, rfl⟩ := List.mem_map.mp hc
  by_cases hn : c0.name ∈ basicStatCols ∧ c0.dtype = Dtype.object
  · rw [if_pos hn]
    intro ho
    exact absurd ho (fun hh => Dtype.noConfusion hh)
  · rw [if_neg hn]
    exact h c0 hc0

theorem dnpFinal_clean (kind : String) (cols : List Col)
    (h : ∀ c ∈ cols, cleanCol c) : ∀ c ∈ dnpFinal kind cols, cleanCol c := by
  intro c hc
  unfold dnpFinal at hc
  split at hc
  · exact basicNumericStage_clean _ (dnpMaskStage_clean _ h) c hc
  · exact h c hc

/-- C10 counterexample: a game_info status column holding an empty string is
converted to the category dtype by the common categorical pass before the
empty-string replacement runs, and the replacement only touches object
columns — the empty string survives the optimizer. -/
theorem empty_string_survives_categorical_cex :
    optimizeDfModel "game_info" [⟨"status", Dtype.object, [PyVal.s ""]⟩] =
      [⟨"status", Dtype.category, [PyVal.s ""]⟩] :=
  rfl

/-- C10 (amended): after the optimizer, no object-dtype column contains an
empty string — the blanket replacement covers every object column of every
table kind, and the later player_stats stages never reintroduce one. The
rule does not reach columns converted to the category dtype earlier in the
same call, where an input empty string survives. -/
theorem no_empty_strings_in_object_columns (kind : String) (cols : List Col)
    (c : Col) (hc : c ∈ optimizeDfModel kind cols) (ho : c.dtype = Dtype.object) :
    PyVal.s "" ∉ c.values := by
  unfold optimizeDfModel at hc
  split at hc
  · next hemp =>
    have h2 := List.all_eq_true.mp hemp c hc
    simp only at h2
    cases hval : c.values with
    | nil => exact List.not_mem_nil _
    | cons a as =>
      rw [hval] at h2
      simp [List.isEmpty] at h2
  · exact dnpFinal_clean kind _ (emptyStrPass_clean _) c hc ho

theorem no_empty_strings_in_object_columns_witness :
    PyVal.s "" ∉ (Col.mk "note" Dtype.object [PyVal.nan, PyVal.s "x"]).values :=
  no_empty_strings_in_object_columns "teams"
    [⟨"note", Dtype.object, [PyVal.s "", PyVal.s "x"]⟩]
    ⟨"note", Dtype.object, [PyVal.nan, PyVal.s "x"]⟩
    (by
      simp [show optimizeDfModel "teams"
          [(⟨"note", Dtype.object, [PyVal.s "", PyVal.s "x"]⟩ : Col)] =
          [⟨"note", Dtype.object, [PyVal.nan, PyVal.s "x"]⟩] from rfl])
    rfl
